import Mathlib

/-!
# SwarmSense USV — verification of the simulation & live-state engine

A shallow embedding of `src/simulator/swarm_sim.py` and the driver logic of
`src/backend/main.py`.  Python floats are modelled as exact rationals, the
global `random` module as an explicit stream of draws threaded through every
operation, and the trigonometric / square-root library functions as an
abstract oracle (no claim below depends on their values).
-/

namespace SwarmSense

/-! ## Configuration constants (src/simulator/swarm_sim.py, lines 7-30) -/

def NUM_FRIENDLY_BOATS : ℕ := 10
def NUM_ADVERSARY_BOATS : ℕ := 2
def SIMULATION_DURATION_SEC : ℕ := 600
def SIMULATION_STEP_SEC : ℚ := 1
def AREA_CENTER : ℚ × ℚ := (24, 239/2)
def AREA_RADIUS_DEG : ℚ := 1/10
def ERROR_TRIGGER_RATE : ℚ := 1/1000
def ERROR_RECOVERY_RATE : ℚ := 1/10
def FRIENDLY_MAX_SPEED : ℚ := 15
def FRIENDLY_ACCELERATION : ℚ := 2
def FRIENDLY_DECELERATION : ℚ := 3
def ADVERSARY_MAX_SPEED : ℚ := 10
def ADVERSARY_ACCELERATION : ℚ := 3/2
def ADVERSARY_DECELERATION : ℚ := 5/2
def INTERCEPT_DISTANCE : ℚ := 1/500
def COLLISION_AVOIDANCE_DISTANCE : ℚ := 1/2000

/-! ## Python primitives

`pymod x m` is Python's `x % m` on reals: the representative of `x` modulo
`m` lying in `[0, m)` for `m > 0`.  `Rng` models the global `random` module:
an infinite stream of raw draws (the results of `random.random()`, each in
`[0,1)`) together with the position of the next draw.  `random.uniform a b`
is `a + (b-a) * random()` exactly as in CPython. -/

def pymod (x m : ℚ) : ℚ := x - m * ⌊x / m⌋

structure Rng where
  stream : ℕ → ℚ
  pos : ℕ

def Rng.next (g : Rng) : ℚ × Rng :=
  (g.stream g.pos, { g with pos := g.pos + 1 })

def Rng.uniform (g : Rng) (a b : ℚ) : ℚ × Rng :=
  let (r, g) := g.next
  (a + (b - a) * r, g)

def Rng.choice (g : Rng) (l : List String) : String × Rng :=
  let (r, g) := g.next
  (l.getD (⌊r * l.length⌋).toNat "", g)

/-- The stream of raw draws behaves like `random.random()`: every value in
`[0, 1)`. -/
def StreamOk (s : ℕ → ℚ) : Prop := ∀ n, 0 ≤ s n ∧ s n < 1

/-- Oracle for the `math` library functions used by the simulator
(`cos`/`sin` of an angle in degrees, `degrees(atan2 y x)`, `sqrt`).
Every theorem below holds for an arbitrary oracle. -/
structure MathOracle where
  cosD : ℚ → ℚ
  sinD : ℚ → ℚ
  atan2D : ℚ → ℚ → ℚ
  sqrtQ : ℚ → ℚ

/-! ## Geo-kinematics utilities (swarm_sim.py, lines 32-41) -/

def calculate_distance (O : MathOracle) (lat1 lon1 lat2 lon2 : ℚ) : ℚ :=
  O.sqrtQ ((lat2 - lat1) ^ 2 + (lon2 - lon1) ^ 2)

def calculate_bearing (O : MathOracle) (lat1 lon1 lat2 lon2 : ℚ) : ℚ :=
  let dx := lon2 - lon1
  let dy := lat2 - lat1
  let bearing := O.atan2D dx dy
  pymod (bearing + 360) 360

/-! ## Vessel state (swarm_sim.py, classes AdversaryBoat and USV) -/

structure AdversaryBoat where
  id : ℕ
  lat : ℚ
  lon : ℚ
  course : ℚ
  speed : ℚ
  target_speed : ℚ
  target_course : ℚ
  max_turn_rate : ℚ
deriving Repr, DecidableEq

structure USV where
  id : ℕ
  lat : ℚ
  lon : ℚ
  battery : ℚ
  status : String
  error_msg : String
  course : ℚ
  speed : ℚ
  target_speed : ℚ
  max_turn_rate : ℚ
  assigned_target : Option ℕ
  station_angle : ℚ
  station_dist : ℚ
deriving Repr, DecidableEq

/-! ## AdversaryBoat.step_sim (swarm_sim.py, lines 55-94)

Translated block by block, in source order: random course/speed changes,
acceleration toward target speed, smooth turning, movement with jitter. -/

def AdversaryBoat.retarget (b : AdversaryBoat) (dt : ℚ) (g : Rng) :
    AdversaryBoat × Rng :=
  let (r1, g) := g.next
  let (tc, g) :=
    if r1 < 2/100 * dt then Rng.uniform g 0 360 else (b.target_course, g)
  let (r2, g) := g.next
  let (ts, g) :=
    if r2 < 1/100 * dt then Rng.uniform g 2 ADVERSARY_MAX_SPEED
    else (b.target_speed, g)
  ({ b with target_course := tc, target_speed := ts }, g)

def AdversaryBoat.filter_speed (b : AdversaryBoat) (dt : ℚ) : AdversaryBoat :=
  let speed_diff := b.target_speed - b.speed
  if |speed_diff| > 1/10 then
    if speed_diff > 0 then
      { b with speed := b.speed + min (ADVERSARY_ACCELERATION * dt) speed_diff }
    else
      { b with speed := b.speed - min (ADVERSARY_DECELERATION * dt) |speed_diff| }
  else
    { b with speed := b.target_speed }

def AdversaryBoat.turn (b : AdversaryBoat) (dt : ℚ) : AdversaryBoat :=
  let diff := pymod (b.target_course - b.course + 180) 360 - 180
  let max_turn := b.max_turn_rate * dt
  if |diff| > max_turn then
    { b with course := pymod (b.course + (if diff > 0 then max_turn else -max_turn)) 360 }
  else
    { b with course := b.target_course }

def AdversaryBoat.move (O : MathOracle) (b : AdversaryBoat) (dt : ℚ)
    (g : Rng) : AdversaryBoat × Rng :=
  if b.speed > 0 then
    let speed_kmh := b.speed * (1852/1000)
    let distance_km := speed_kmh * (dt / 3600)
    let distance_deg := distance_km / (11132/100)
    let lat := b.lat + distance_deg * O.cosD b.course
    let lon_factor := O.cosD lat
    let lon := b.lon + distance_deg * O.sinD b.course / lon_factor
    -- Small jitter
    let (j, g) := Rng.uniform g (-(3/10)) (3/10)
    ({ b with lat := lat, lon := lon, course := pymod (b.course + j) 360 }, g)
  else (b, g)

def AdversaryBoat.step_sim (O : MathOracle) (b : AdversaryBoat) (dt : ℚ)
    (g : Rng) : AdversaryBoat × Rng :=
  let (b, g) := b.retarget dt g
  let b := b.filter_speed dt
  let b := b.turn dt
  b.move O dt g

/-! ## USV.set_course (swarm_sim.py, lines 252-261) -/

def USV.set_course (u : USV) (target_course : ℚ) : USV :=
  let diff := pymod (target_course - u.course + 180) 360 - 180
  let max_turn := u.max_turn_rate * SIMULATION_STEP_SEC
  if |diff| > max_turn then
    { u with course := pymod (u.course + (if diff > 0 then max_turn else -max_turn)) 360 }
  else
    { u with course := target_course }

/-! ## USV.step_sim (swarm_sim.py, lines 155-250)

Translated stage by stage, in source order: battery drain, dead-battery
check, error handling / tracking logic, speed filtering, battery speed
clamp, movement. -/

def USV.drain_battery (u : USV) (dt : ℚ) : USV :=
  if u.speed > 0 then
    let propulsion_drain := u.speed ^ 2 * (33/100000) * dt
    let b := u.battery - propulsion_drain
    { u with battery := if b < 0 then 0 else b }
  else u

def USV.dead_battery_check (u : USV) : USV :=
  if u.battery ≤ 0 then
    { u with target_speed := 0,
             status := if u.status = "TRACKING" then "IDLE" else u.status }
  else u

def USV.tracking_logic (O : MathOracle) (u : USV) (adv : AdversaryBoat) : USV :=
  let u := { u with status := "TRACKING" }
  let dist := calculate_distance O u.lat u.lon adv.lat adv.lon
  let bearing := calculate_bearing O u.lat u.lon adv.lat adv.lon
  -- Collision avoidance - if too close, back off
  if dist < COLLISION_AVOIDANCE_DISTANCE then
    ({ u with target_speed := 2 }).set_course (pymod (bearing + 180) 360)
  else
    -- Speed control based on distance
    let ts :=
      if dist > INTERCEPT_DISTANCE * 3 then FRIENDLY_MAX_SPEED
      else if dist > INTERCEPT_DISTANCE * (3/2) then 8
      else if dist > INTERCEPT_DISTANCE then adv.speed
      else max 2 (adv.speed - 1)
    ({ u with target_speed := ts }).set_course bearing

def USV.status_update (O : MathOracle) (u : USV) (tgt : Option AdversaryBoat)
    (dt : ℚ) (g : Rng) : USV × Rng :=
  if u.status = "ERROR" then
    let u := { u with target_speed := 0 }
    if u.error_msg = "GPS Signal Lost" ∨ u.error_msg = "Comms Timeout" then
      let (r, g) := g.next
      if r < ERROR_RECOVERY_RATE * dt then
        ({ u with status := "IDLE", error_msg := "" }, g)
      else (u, g)
    else (u, g)
  else
    -- Trigger new error (only if battery not dead); `and` short-circuits,
    -- so the draw happens only when battery > 0
    let (trig, g) :=
      if 0 < u.battery then
        let (r, g) := g.next
        (decide (r < ERROR_TRIGGER_RATE * dt), g)
      else (false, g)
    if trig then
      let (msg, g) := Rng.choice g ["Motor Failure", "GPS Signal Lost", "Comms Timeout"]
      ({ u with status := "ERROR", error_msg := msg, target_speed := 0 }, g)
    else
      match tgt with
      | some adv => if u.battery > 5 then (u.tracking_logic O adv, g) else (u, g)
      | none => (u, g)

def USV.speed_filter (u : USV) (dt : ℚ) : USV :=
  let speed_diff := u.target_speed - u.speed
  if |speed_diff| > 1/10 then
    if speed_diff > 0 then
      let accel := min (FRIENDLY_ACCELERATION * dt) speed_diff
      { u with speed := min FRIENDLY_MAX_SPEED (u.speed + accel) }
    else
      let decel := min (FRIENDLY_DECELERATION * dt) |speed_diff|
      { u with speed := max 0 (u.speed - decel) }
  else
    { u with speed := u.target_speed }

def USV.movement (O : MathOracle) (u : USV) (dt : ℚ) (g : Rng) : USV × Rng :=
  if u.speed > 0 ∧ u.battery > 0 then
    let speed_kmh := u.speed * (1852/1000)
    let distance_km := speed_kmh * (dt / 3600)
    let distance_deg := distance_km / (11132/100)
    let lat := u.lat + distance_deg * O.cosD u.course
    let lon_factor := O.cosD lat
    let lon := u.lon + distance_deg * O.sinD u.course / lon_factor
    let (j, g) := Rng.uniform g (-(3/10)) (3/10)
    ({ u with lat := lat, lon := lon, course := pymod (u.course + j) 360 }, g)
  else (u, g)

def USV.step_sim (O : MathOracle) (u : USV) (tgt : Option AdversaryBoat)
    (dt : ℚ) (g : Rng) : USV × Rng :=
  let u := u.drain_battery dt
  let u := u.dead_battery_check
  let (u, g) := u.status_update O tgt dt g
  let u := u.speed_filter dt
  -- Enforce battery constraint
  let u := if u.battery ≤ 0 then { u with speed := 0 } else u
  u.movement O dt g

/-! ## USV.get_target_point (swarm_sim.py, lines 135-153)

The Python method reads `self.assigned_target`, a reference to a live
`AdversaryBoat` object; here the reference is resolved to the adversary's
current state and passed in. -/

def USV.get_target_point (O : MathOracle) (u : USV) (tgt : Option AdversaryBoat) :
    ℚ × ℚ :=
  match tgt with
  | none => (u.lat, u.lon)
  | some adv =>
    -- Lead Pursuit: project where the target will be in 10 seconds
    let lead_time : ℚ := 10
    let speed_deg_sec := adv.speed * (1852/1000) / 3600 / (11132/100)
    let projected_lat := adv.lat + speed_deg_sec * lead_time * O.cosD adv.course
    let projected_lon := adv.lon + speed_deg_sec * lead_time * O.sinD adv.course
    -- Station offset: position relative to the adversary's heading
    let offset_angle := pymod (adv.course + u.station_angle) 360
    (projected_lat + u.station_dist * O.cosD offset_angle,
     projected_lon + u.station_dist * O.sinD offset_angle)

/-! ## Per-tick USV update in the simulation loop (swarm_sim.py, lines 326-344)

The loop body: when not in ERROR and battery > 0, steer toward the station
point and choose target speed, then run `step_sim`.  The assigned target is
resolved by index into the current adversary list (the Python object
reference sees exactly the adversary's current, already-updated state). -/

def usvTick (O : MathOracle) (advs : List AdversaryBoat) (u : USV) (g : Rng) :
    USV × Rng :=
  let tgt := u.assigned_target.bind advs.get?
  let u :=
    if u.status ≠ "ERROR" ∧ u.battery > 0 then
      let tp := u.get_target_point O tgt
      let dist_to_station := calculate_distance O u.lat u.lon tp.1 tp.2
      let bearing_to_station := calculate_bearing O u.lat u.lon tp.1 tp.2
      let u := u.set_course bearing_to_station
      -- High speed if far from station, match speed if close.  In the
      -- source, the close branch reads `usv.assigned_target.speed`; the
      -- target is always present there (assigned at run start), so the
      -- `none` fallback 0 is unreachable in the run.
      if dist_to_station > INTERCEPT_DISTANCE then
        { u with target_speed := FRIENDLY_MAX_SPEED }
      else
        { u with target_speed := (tgt.map AdversaryBoat.speed).getD 0 }
    else u
  u.step_sim O tgt SIMULATION_STEP_SEC g

/-! ## Initialization (swarm_sim.py, lines 44-53, 108-120, 291-292) -/

def AdversaryBoat.init (i : ℕ) (g : Rng) : AdversaryBoat × Rng :=
  let (dlat, g) := Rng.uniform g (-AREA_RADIUS_DEG) AREA_RADIUS_DEG
  let (dlon, g) := Rng.uniform g (-AREA_RADIUS_DEG) AREA_RADIUS_DEG
  let (c, g) := Rng.uniform g 0 360
  let (s, g) := Rng.uniform g 3 6
  ({ id := i, lat := AREA_CENTER.1 + dlat, lon := AREA_CENTER.2 + dlon,
     course := c, speed := s, target_speed := s, target_course := c,
     max_turn_rate := 8 }, g)

def USV.init (i : ℕ) (g : Rng) : USV × Rng :=
  let (dlat, g) := Rng.uniform g (-AREA_RADIUS_DEG) AREA_RADIUS_DEG
  let (dlon, g) := Rng.uniform g (-AREA_RADIUS_DEG) AREA_RADIUS_DEG
  let (c, g) := Rng.uniform g 0 360
  ({ id := i, lat := AREA_CENTER.1 + dlat, lon := AREA_CENTER.2 + dlon,
     battery := 100, status := "IDLE", error_msg := "", course := c,
     speed := 0, target_speed := 0, max_turn_rate := 15,
     assigned_target := none, station_angle := 0, station_dist := 0 }, g)

/-- Build a list of boats from a list of ids, threading the random stream
left to right (the Python list comprehensions draw from the global rng in
order). -/
def initList {α : Type} (mk : ℕ → Rng → α × Rng) : List ℕ → Rng → List α × Rng
  | [], g => ([], g)
  | i :: is, g =>
    let (a, g) := mk i g
    let (as, g) := initList mk is g
    (a :: as, g)

/-! ## Tactical assignment (swarm_sim.py, lines 294-312) -/

def station_angles : List ℚ := [45, -45, 135, -135, 90, -90, 180, 0]

/-- The loop `for j, usv in enumerate(pack)` over a full-list representation: apply
`f` at each position, carrying the position index. -/
def mapWithIndex {α : Type} (f : ℕ → α → α) : ℕ → List α → List α
  | _, [] => []
  | n, a :: as => f n a :: mapWithIndex f (n + 1) as

/-- The mutation applied to the j-th vessel of adversary i's pack:
`usv.assigned_target = adv`, `usv.station_angle = station_angles[j % 8]`,
`usv.station_dist = INTERCEPT_DISTANCE * 1.2`. -/
def packUpdate (i j : ℕ) (u : USV) : USV :=
  { u with assigned_target := some i,
           station_angle := station_angles.getD (j % station_angles.length) 0,
           station_dist := INTERCEPT_DISTANCE * (12/10) }

/-- One iteration of the outer `for i, adv in enumerate(adversary_boats)`
loop: mutate the friendly vessels whose index falls in slice
`[i * usvs_per_adv, end_idx)`. -/
def assignPack (numF usvs_per_adv numA i : ℕ) (boats : List USV) : List USV :=
  let start_idx := i * usvs_per_adv
  let end_idx := if i < numA - 1 then (i + 1) * usvs_per_adv else numF
  mapWithIndex (fun f u =>
    if start_idx ≤ f ∧ f < end_idx then packUpdate i (f - start_idx) u
    else u) 0 boats

def tacticalAssignment (friendly : List USV) (advs : List AdversaryBoat) :
    List USV :=
  let usvs_per_adv := friendly.length / advs.length
  (List.range advs.length).foldl
    (fun bs i => assignPack friendly.length usvs_per_adv advs.length i bs) friendly

/-! ## Snapshots (swarm_sim.py, to_dict methods, lines 96-105 and 263-287)

`round(x, n)` is Python's round-half-to-even.  The virtual timestamp is the
number of seconds since the epoch; `datetime.isoformat` is injective on it,
so the string formatting is dropped. -/

def roundHalfEven (x : ℚ) : ℤ :=
  let f := ⌊x⌋
  let r := x - f
  if r < 1/2 then f
  else if r > 1/2 then f + 1
  else if 2 ∣ f then f else f + 1

def pyRound (x : ℚ) (n : ℕ) : ℚ := (roundHalfEven (x * 10 ^ n) : ℚ) / 10 ^ n

structure TargetInfo where
  target_id : String
  distance_deg : ℚ
  distance_m : ℚ
deriving Repr, DecidableEq

/-- One JSONL record.  Keys absent from the adversary dict are `none`. -/
structure Snapshot where
  timestamp : ℤ
  boat_id : String
  type : String
  lat : ℚ
  lon : ℚ
  battery : Option ℚ
  status : Option String
  error_details : Option String
  speed_knots : ℚ
  course_deg : ℚ
  target : Option (Option TargetInfo)
deriving Repr, DecidableEq

def AdversaryBoat.to_dict (b : AdversaryBoat) (t : ℤ) : Snapshot :=
  { timestamp := t, boat_id := "ADV-" ++ toString b.id, type := "adversary",
    lat := pyRound b.lat 6, lon := pyRound b.lon 6,
    battery := none, status := none, error_details := none,
    speed_knots := pyRound b.speed 1, course_deg := pyRound b.course 1,
    target := none }

def USV.to_dict (O : MathOracle) (u : USV) (tgt : Option AdversaryBoat)
    (t : ℤ) : Snapshot :=
  let target_info : Option TargetInfo :=
    match tgt with
    | some adv =>
      let dist := calculate_distance O u.lat u.lon adv.lat adv.lon
      some { target_id := "ADV-" ++ toString adv.id,
             distance_deg := pyRound dist 6,
             distance_m := pyRound (dist * 111320) 1 }
    | none => none
  { timestamp := t, boat_id := "USV-" ++ toString u.id, type := "friendly",
    lat := pyRound u.lat 6, lon := pyRound u.lon 6,
    battery := some (pyRound u.battery 1), status := some u.status,
    error_details := some u.error_msg,
    speed_knots := pyRound u.speed 1, course_deg := pyRound u.course 1,
    target := some target_info }

/-! ## The simulation loop (swarm_sim.py, run_simulation, lines 289-355) -/

def stepAdversaries (O : MathOracle) :
    List AdversaryBoat → Rng → List AdversaryBoat × Rng
  | [], g => ([], g)
  | a :: as, g =>
    let (a, g) := a.step_sim O SIMULATION_STEP_SEC g
    let (as, g) := stepAdversaries O as g
    (a :: as, g)

def stepUSVs (O : MathOracle) (advs : List AdversaryBoat) :
    List USV → Rng → List USV × Rng
  | [], g => ([], g)
  | u :: us, g =>
    let (u, g) := usvTick O advs u g
    let (us, g) := stepUSVs O advs us g
    (u :: us, g)

def snapshotsOf (O : MathOracle) (advs : List AdversaryBoat) (usvs : List USV)
    (t : ℤ) : List Snapshot :=
  advs.map (fun a => a.to_dict t) ++
    usvs.map (fun u => u.to_dict O (u.assigned_target.bind advs.get?) t)

def simSteps (O : MathOracle) :
    ℕ → List AdversaryBoat × List USV → Rng → ℤ → List (List Snapshot)
  | 0, _, _, _ => []
  | n + 1, st, g, t =>
    let (advs, g) := stepAdversaries O st.1 g
    let (usvs, g) := stepUSVs O advs st.2 g
    snapshotsOf O advs usvs t :: simSteps O n (advs, usvs) g (t + 1)

/-- The function `run_simulation`, as the sequence of JSONL records it writes.
`startTime` is the virtual start time `datetime.utcnow().replace(hour=0,
minute=0, second=0, microsecond=0)` in epoch seconds: it depends on the
wall-clock date of the run, not on the random stream. -/
def run_simulation (O : MathOracle) (startTime : ℤ) (g : Rng) : List Snapshot :=
  let (friendly_boats, g) := initList USV.init (List.range' 1 NUM_FRIENDLY_BOATS) g
  let (adversary_boats, g) :=
    initList AdversaryBoat.init (List.range' 1 NUM_ADVERSARY_BOATS) g
  let friendly_boats := tacticalAssignment friendly_boats adversary_boats
  (simSteps O SIMULATION_DURATION_SEC (adversary_boats, friendly_boats) g
    startTime).flatten

/-! ## Backend: module surface (src/simulator/swarm_sim.py top level)

The names bound at the top level of the `swarm_sim` module, for the import
`from swarm_sim import SwarmSimulator` in `src/backend/main.py` line 11. -/

def swarm_sim_module_names : List String :=
  ["json", "random", "math", "datetime", "timedelta", "Dict", "List",
   "Optional", "NUM_FRIENDLY_BOATS", "NUM_ADVERSARY_BOATS", "LOG_FILE",
   "SIMULATION_DURATION_SEC", "SIMULATION_STEP_SEC", "AREA_CENTER",
   "AREA_RADIUS_DEG", "ERROR_TRIGGER_RATE", "ERROR_RECOVERY_RATE",
   "FRIENDLY_MAX_SPEED", "FRIENDLY_ACCELERATION", "FRIENDLY_DECELERATION",
   "ADVERSARY_MAX_SPEED", "ADVERSARY_ACCELERATION", "ADVERSARY_DECELERATION",
   "INTERCEPT_DISTANCE", "COLLISION_AVOIDANCE_DISTANCE",
   "calculate_distance", "calculate_bearing", "AdversaryBoat", "USV",
   "run_simulation"]

/-- Resolving `SwarmSimulator` in the `swarm_sim` module: `none` is an
`ImportError`.  This import is what `simulation_instance = SwarmSimulator()`
in `start_simulation` (main.py lines 136-148) needs to succeed. -/
def importSwarmSimulator : Option String :=
  if "SwarmSimulator" ∈ swarm_sim_module_names then some "SwarmSimulator"
  else none

/-- The outcome of the start-simulation endpoint: `{"status": "started"}`
only if the `SwarmSimulator` name resolves; otherwise a failure is raised. -/
def start_simulation_response : Except String String :=
  match importSwarmSimulator with
  | some _ => Except.ok "started"
  | none => Except.error "cannot import name SwarmSimulator from swarm_sim"

/-! ## Backend: playback worker (src/backend/main.py, lines 42-75)

One loop iteration takes the maximal run of consecutive entries sharing the
first entry's timestamp as a batch, writes it to the world-state store, and
sleeps for `1.0 / playback_speed`.  The shared stop flag `playback_active`
is read once at the top of each iteration; `active n` is the value the n-th
check observes. -/

structure LogEntry where
  timestamp : String
  boat_id : String
deriving Repr, DecidableEq

def get_virtual_step_delay (playback_speed : ℚ) : ℚ := 1 / playback_speed

/-- The inner `while` of `playback_worker`: collect the leading entries with
timestamp `current_ts`, returning the batch and the remaining entries. -/
def takeBatch (current_ts : String) : List LogEntry → List LogEntry × List LogEntry
  | [] => ([], [])
  | e :: rest =>
    if e.timestamp = current_ts then
      let p := takeBatch current_ts rest
      (e :: p.1, p.2)
    else ([], e :: rest)

theorem takeBatch_snd_length (ts : String) :
    ∀ l : List LogEntry, (takeBatch ts l).2.length ≤ l.length := by
  intro l
  induction l with
  | nil => simp [takeBatch]
  | cons e rest ih =>
    by_cases h : e.timestamp = ts
    · simpa [takeBatch, h] using Nat.le_succ_of_le ih
    · simp [takeBatch, h]

def playback_worker (active : ℕ → Bool) (check : ℕ) :
    List LogEntry → List (List LogEntry)
  | [] => []
  | e :: rest =>
    if active check then
      let p := takeBatch e.timestamp (e :: rest)
      p.1 :: playback_worker active (check + 1) p.2
    else []
termination_by l => l.length
decreasing_by
  simp only [takeBatch, if_pos rfl]
  exact Nat.lt_succ_of_le (takeBatch_snd_length e.timestamp rest)

/-- The sequence of (store update batch, pacing wait) events produced by one
playback run. -/
def playback_events (active : ℕ → Bool) (playback_speed : ℚ)
    (logs : List LogEntry) : List (List LogEntry × ℚ) :=
  (playback_worker active 0 logs).map
    (fun b => (b, get_virtual_step_delay playback_speed))

/-! ## Playback-worker lemmas (claims C7 and C10) -/

theorem takeBatch_append (ts : String) :
    ∀ l : List LogEntry, (takeBatch ts l).1 ++ (takeBatch ts l).2 = l := by
  intro l
  induction l with
  | nil => simp [takeBatch]
  | cons e rest ih =>
    by_cases h : e.timestamp = ts
    · simp [takeBatch, h, ih]
    · simp [takeBatch, h]

theorem takeBatch_mem_ts (ts : String) :
    ∀ l : List LogEntry, ∀ e ∈ (takeBatch ts l).1, e.timestamp = ts := by
  intro l
  induction l with
  | nil => simp [takeBatch]
  | cons e rest ih =>
    by_cases h : e.timestamp = ts
    · simp only [takeBatch, if_pos h]
      intro x hx
      rcases List.mem_cons.mp hx with hx | hx
      · rw [hx]
        exact h
      · exact ih x hx
    · simp [takeBatch, h]

theorem takeBatch_rest_head (ts : String) :
    ∀ l : List LogEntry, ∀ e, (takeBatch ts l).2.head? = some e →
      e.timestamp ≠ ts := by
  intro l
  induction l with
  | nil => simp [takeBatch]
  | cons e rest ih =>
    by_cases h : e.timestamp = ts
    · simp only [takeBatch, if_pos h]
      exact ih
    · simp only [takeBatch, if_neg h, List.head?_cons]
      intro x hx
      injection hx with hx2
      subst hx2
      exact h

theorem takeBatch_cons_self (e : LogEntry) (rest : List LogEntry) :
    takeBatch e.timestamp (e :: rest) =
      (e :: (takeBatch e.timestamp rest).1, (takeBatch e.timestamp rest).2) := by
  simp [takeBatch]

theorem playback_worker_flatten_aux :
    ∀ (n : ℕ) (l : List LogEntry) (c : ℕ), l.length ≤ n →
      (playback_worker (fun _ => true) c l).flatten = l := by
  intro n
  induction n with
  | zero =>
    intro l c h
    rw [List.length_eq_zero.mp (Nat.le_zero.mp h)]
    simp [playback_worker]
  | succ n ih =>
    intro l c h
    match l with
    | [] => simp [playback_worker]
    | e :: rest =>
      rw [playback_worker]
      simp only [if_true]
      rw [List.flatten_cons]
      have hlen : (takeBatch e.timestamp (e :: rest)).2.length ≤ n := by
        rw [takeBatch_cons_self]
        exact le_trans (takeBatch_snd_length e.timestamp rest)
          (Nat.lt_succ_iff.mp (lt_of_lt_of_le (Nat.lt_succ_self _) h))
      rw [ih _ (c + 1) hlen]
      exact takeBatch_append e.timestamp (e :: rest)

theorem playback_worker_batches_aux :
    ∀ (n : ℕ) (l : List LogEntry) (c : ℕ), l.length ≤ n →
      ∀ b ∈ playback_worker (fun _ => true) c l,
        b ≠ [] ∧ ∃ ts, ∀ e ∈ b, e.timestamp = ts := by
  intro n
  induction n with
  | zero =>
    intro l c h
    rw [List.length_eq_zero.mp (Nat.le_zero.mp h)]
    simp [playback_worker]
  | succ n ih =>
    intro l c h b hb
    match l with
    | [] => simp [playback_worker] at hb
    | e :: rest =>
      rw [playback_worker] at hb
      simp only [if_true] at hb
      have hlen : (takeBatch e.timestamp (e :: rest)).2.length ≤ n := by
        rw [takeBatch_cons_self]
        exact le_trans (takeBatch_snd_length e.timestamp rest)
          (Nat.lt_succ_iff.mp (lt_of_lt_of_le (Nat.lt_succ_self _) h))
      rcases List.mem_cons.mp hb with hb | hb
      · subst hb
        refine ⟨by rw [takeBatch_cons_self]; simp, e.timestamp, ?_⟩
        exact takeBatch_mem_ts e.timestamp (e :: rest)
      · exact ih _ (c + 1) hlen b hb

theorem playback_worker_chain_aux :
    ∀ (n : ℕ) (l : List LogEntry) (c : ℕ), l.length ≤ n →
      List.Chain'
        (fun b1 b2 => b1.head?.map LogEntry.timestamp ≠
          b2.head?.map LogEntry.timestamp)
        (playback_worker (fun _ => true) c l) := by
  intro n
  induction n with
  | zero =>
    intro l c h
    rw [List.length_eq_zero.mp (Nat.le_zero.mp h)]
    simp [playback_worker]
  | succ n ih =>
    intro l c h
    match l with
    | [] => simp [playback_worker]
    | e :: rest =>
      rw [playback_worker]
      simp only [if_true]
      have hlen : (takeBatch e.timestamp (e :: rest)).2.length ≤ n := by
        rw [takeBatch_cons_self]
        exact le_trans (takeBatch_snd_length e.timestamp rest)
          (Nat.lt_succ_iff.mp (lt_of_lt_of_le (Nat.lt_succ_self _) h))
      refine List.chain'_cons'.mpr ⟨?_, ih _ (c + 1) hlen⟩
      intro b2 hb2
      -- b2 is the head of the remaining batches; its head entry opens the
      -- remainder of the log, whose timestamp differs from e's
      rcases hr : (takeBatch e.timestamp (e :: rest)).2 with _ | ⟨e2, r2⟩
      · rw [hr] at hb2
        simp [playback_worker] at hb2
      · rw [hr] at hb2
        rw [playback_worker] at hb2
        simp only [if_true, List.head?_cons, Option.mem_def,
          Option.some.injEq] at hb2
        subst hb2
        have hne : e2.timestamp ≠ e.timestamp := by
          refine takeBatch_rest_head e.timestamp (e :: rest) e2 ?_
          rw [hr, List.head?_cons]
        simp only [takeBatch_cons_self, List.head?_cons, Option.map_some']
        intro hc
        injection hc with hc2
        exact hne hc2.symm

theorem playback_worker_checks_aux :
    ∀ (n : ℕ) (l : List LogEntry) (c : ℕ) (active : ℕ → Bool),
      l.length ≤ n → ∀ k, k < (playback_worker active c l).length →
        active (c + k) = true := by
  intro n
  induction n with
  | zero =>
    intro l c active h k
    rw [List.length_eq_zero.mp (Nat.le_zero.mp h)]
    simp [playback_worker]
  | succ n ih =>
    intro l c active h k hk
    match l with
    | [] => simp [playback_worker] at hk
    | e :: rest =>
      rw [playback_worker] at hk
      by_cases hact : active c
      · rw [if_pos hact] at hk
        match k with
        | 0 => simpa using hact
        | k + 1 =>
          have hlen : (takeBatch e.timestamp (e :: rest)).2.length ≤ n := by
            rw [takeBatch_cons_self]
            exact le_trans (takeBatch_snd_length e.timestamp rest)
              (Nat.lt_succ_iff.mp (lt_of_lt_of_le (Nat.lt_succ_self _) h))
          have := ih _ (c + 1) active hlen k
            (by simpa using Nat.lt_of_succ_lt_succ hk)
          rwa [show c + (k + 1) = c + 1 + k by omega]
      · rw [if_neg hact] at hk
        simp at hk

theorem playback_worker_stop_prefix_aux :
    ∀ (n : ℕ) (l : List LogEntry) (c : ℕ) (active : ℕ → Bool), l.length ≤ n →
      ∃ t, playback_worker active c l ++ t =
        playback_worker (fun _ => true) c l := by
  intro n
  induction n with
  | zero =>
    intro l c active h
    rw [List.length_eq_zero.mp (Nat.le_zero.mp h)]
    exact ⟨[], by simp [playback_worker]⟩
  | succ n ih =>
    intro l c active h
    match l with
    | [] => exact ⟨[], by simp [playback_worker]⟩
    | e :: rest =>
      by_cases hact : active c
      · have hlen : (takeBatch e.timestamp (e :: rest)).2.length ≤ n := by
          rw [takeBatch_cons_self]
          exact le_trans (takeBatch_snd_length e.timestamp rest)
            (Nat.lt_succ_iff.mp (lt_of_lt_of_le (Nat.lt_succ_self _) h))
        obtain ⟨t, ht⟩ := ih _ (c + 1) active hlen
        refine ⟨t, ?_⟩
        rw [playback_worker, if_pos hact, playback_worker, if_pos rfl,
          List.cons_append, ht]
      · refine ⟨playback_worker (fun _ => true) c (e :: rest), ?_⟩
        rw [playback_worker, if_neg hact, List.nil_append]

/-! ## Claim C7 -/

/-- C7: for a timestamp-sorted log, the playback worker partitions the log
into batches of consecutive entries sharing one timestamp (their
concatenation restores the log, every batch is nonempty and
timestamp-uniform, adjacent batches open with different timestamps), emits
exactly one store-update batch plus one pacing wait of
`1.0 / playback_speed` per batch, and in particular a log with timestamps
`[T0, T0, T1]` yields exactly two batches, not three. -/
theorem c7_playback_batching :
    (∀ logs : List LogEntry,
       (playback_worker (fun _ => true) 0 logs).flatten = logs) ∧
    (∀ (logs b : List LogEntry), b ∈ playback_worker (fun _ => true) 0 logs →
       b ≠ [] ∧ ∃ ts, ∀ e ∈ b, e.timestamp = ts) ∧
    (∀ logs : List LogEntry,
       List.Chain'
         (fun b1 b2 => b1.head?.map LogEntry.timestamp ≠
           b2.head?.map LogEntry.timestamp)
         (playback_worker (fun _ => true) 0 logs)) ∧
    (∀ (speed : ℚ) (logs : List LogEntry),
       playback_events (fun _ => true) speed logs =
         (playback_worker (fun _ => true) 0 logs).map (fun b => (b, 1 / speed))) ∧
    (∀ e1 e2 e3 : LogEntry, e1.timestamp = e2.timestamp →
       e2.timestamp ≠ e3.timestamp →
       (playback_worker (fun _ => true) 0 [e1, e2, e3]).length = 2 ∧
       (playback_events (fun _ => true) 1 [e1, e2, e3]).length = 2) := by
  refine ⟨?_, ?_, ?_, ?_, ?_⟩
  · intro logs
    exact playback_worker_flatten_aux logs.length logs 0 (le_refl _)
  · intro logs b hb
    exact playback_worker_batches_aux logs.length logs 0 (le_refl _) b hb
  · intro logs
    exact playback_worker_chain_aux logs.length logs 0 (le_refl _)
  · intro speed logs
    rfl
  · intro e1 e2 e3 h1 h2
    have h21 : e2.timestamp = e1.timestamp := h1.symm
    have h31 : ¬e3.timestamp = e1.timestamp := fun hc =>
      h2 (h1.symm.trans hc.symm)
    constructor
    · simp [playback_worker, takeBatch, h21, h31]
    · simp [playback_events, playback_worker, takeBatch, h21, h31]

/-- Concrete log entries for the playback witnesses. -/
def le1 : LogEntry := { timestamp := "T0", boat_id := "USV-1" }

def le2 : LogEntry := { timestamp := "T0", boat_id := "USV-2" }

def le3 : LogEntry := { timestamp := "T1", boat_id := "USV-1" }

/-- Witness for C7 at a concrete `[T0, T0, T1]` log. -/
theorem c7_playback_batching_witness :
    le1.timestamp = le2.timestamp ∧ le2.timestamp ≠ le3.timestamp ∧
    ((playback_worker (fun _ => true) 0 [le1, le2, le3]).length = 2 ∧
     (playback_events (fun _ => true) 1 [le1, le2, le3]).length = 2) :=
  ⟨rfl, by decide,
   c7_playback_batching.2.2.2.2 le1 le2 le3 rfl (by decide)⟩

/-! ## Claim C10 -/

/-- C10: the playback worker reads the stop flag once before each batch:
every batch it emits was preceded by a check that observed the flag still
set (`active k = true` for the k-th batch), and the emitted batches form a
prefix of the batches an unstopped run would emit — so after the stop
signal is observed no further store writes happen, and every write belongs
to a batch begun before the signal was observed. -/
theorem c10_stop_checked_before_batches :
    (∀ (active : ℕ → Bool) (logs : List LogEntry) (k : ℕ),
       k < (playback_worker active 0 logs).length → active k = true) ∧
    (∀ (active : ℕ → Bool) (logs : List LogEntry),
       ∃ t, playback_worker active 0 logs ++ t =
         playback_worker (fun _ => true) 0 logs) := by
  constructor
  · intro active logs k hk
    have := playback_worker_checks_aux logs.length logs 0 active (le_refl _) k hk
    rwa [Nat.zero_add] at this
  · intro active logs
    exact playback_worker_stop_prefix_aux logs.length logs 0 active (le_refl _)

/-- Witness for C10: a stop flag raised after the first batch check. -/
theorem c10_stop_checked_before_batches_witness :
    0 < (playback_worker (fun n => decide (n = 0)) 0 [le1, le3]).length ∧
    (fun n => decide (n = 0)) 0 = true ∧
    (∃ t, playback_worker (fun n => decide (n = 0)) 0 [le1, le3] ++ t =
      playback_worker (fun _ => true) 0 [le1, le3]) :=
  ⟨by simp [playback_worker, takeBatch, le1, le3],
   c10_stop_checked_before_batches.1 (fun n => decide (n = 0)) [le1, le3] 0
     (by simp [playback_worker, takeBatch, le1, le3]),
   c10_stop_checked_before_batches.2 (fun n => decide (n = 0)) [le1, le3]⟩

/-! ## Basic lemmas about the Python primitives -/

theorem pymod_eq_fract (x m : ℚ) (hm : m ≠ 0) :
    pymod x m = m * Int.fract (x / m) := by
  unfold pymod Int.fract
  field_simp

theorem pymod_nonneg (x m : ℚ) (hm : 0 < m) : 0 ≤ pymod x m := by
  rw [pymod_eq_fract x m hm.ne']
  exact mul_nonneg hm.le (Int.fract_nonneg _)

theorem pymod_lt (x m : ℚ) (hm : 0 < m) : pymod x m < m := by
  rw [pymod_eq_fract x m hm.ne']
  calc m * Int.fract (x / m) < m * 1 :=
        (mul_lt_mul_left hm).mpr (Int.fract_lt_one _)
    _ = m := mul_one m

/-! ## Projection lemmas for the USV update stages -/

theorem set_course_only_course (u : USV) (tc : ℚ) :
    (u.set_course tc).status = u.status ∧
    (u.set_course tc).battery = u.battery ∧
    (u.set_course tc).speed = u.speed ∧
    (u.set_course tc).target_speed = u.target_speed ∧
    (u.set_course tc).error_msg = u.error_msg ∧
    (u.set_course tc).assigned_target = u.assigned_target ∧
    (u.set_course tc).station_angle = u.station_angle ∧
    (u.set_course tc).station_dist = u.station_dist := by
  dsimp only [USV.set_course]
  split_ifs <;> simp

theorem drain_battery_only_battery (u : USV) (dt : ℚ) :
    (u.drain_battery dt).status = u.status ∧
    (u.drain_battery dt).error_msg = u.error_msg ∧
    (u.drain_battery dt).speed = u.speed ∧
    (u.drain_battery dt).target_speed = u.target_speed ∧
    (u.drain_battery dt).course = u.course ∧
    (u.drain_battery dt).assigned_target = u.assigned_target ∧
    (u.drain_battery dt).station_angle = u.station_angle ∧
    (u.drain_battery dt).station_dist = u.station_dist := by
  dsimp only [USV.drain_battery]
  split_ifs <;> simp

theorem drain_battery_battery (u : USV) (dt : ℚ) :
    (u.drain_battery dt).battery =
      if u.speed > 0 then
        if u.battery - u.speed ^ 2 * (33/100000) * dt < 0 then 0
        else u.battery - u.speed ^ 2 * (33/100000) * dt
      else u.battery := by
  dsimp only [USV.drain_battery]
  split_ifs <;> simp_all

theorem dead_battery_check_fields (u : USV) :
    (u.dead_battery_check).battery = u.battery ∧
    (u.dead_battery_check).speed = u.speed ∧
    (u.dead_battery_check).error_msg = u.error_msg ∧
    (u.dead_battery_check).course = u.course ∧
    (u.dead_battery_check).assigned_target = u.assigned_target ∧
    (u.dead_battery_check).station_angle = u.station_angle ∧
    (u.dead_battery_check).station_dist = u.station_dist := by
  dsimp only [USV.dead_battery_check]
  split_ifs <;> simp

theorem dead_battery_check_status_ts (u : USV) :
    (u.dead_battery_check).status =
      (if u.battery ≤ 0 ∧ u.status = "TRACKING" then "IDLE" else u.status) ∧
    (u.dead_battery_check).target_speed =
      (if u.battery ≤ 0 then 0 else u.target_speed) := by
  dsimp only [USV.dead_battery_check]
  split_ifs <;> simp_all

theorem tracking_logic_fields (O : MathOracle) (u : USV) (adv : AdversaryBoat) :
    (u.tracking_logic O adv).battery = u.battery ∧
    (u.tracking_logic O adv).speed = u.speed ∧
    (u.tracking_logic O adv).error_msg = u.error_msg ∧
    (u.tracking_logic O adv).assigned_target = u.assigned_target ∧
    (u.tracking_logic O adv).station_angle = u.station_angle ∧
    (u.tracking_logic O adv).station_dist = u.station_dist ∧
    (u.tracking_logic O adv).status = "TRACKING" := by
  dsimp only [USV.tracking_logic]
  split_ifs <;>
    simp [set_course_only_course]

/-- The target speed chosen by the tracking logic is one of the five
distance-policy values. -/
theorem tracking_logic_target_speed (O : MathOracle) (u : USV) (adv : AdversaryBoat) :
    (u.tracking_logic O adv).target_speed = 2 ∨
    (u.tracking_logic O adv).target_speed = FRIENDLY_MAX_SPEED ∨
    (u.tracking_logic O adv).target_speed = 8 ∨
    (u.tracking_logic O adv).target_speed = adv.speed ∨
    (u.tracking_logic O adv).target_speed = max 2 (adv.speed - 1) := by
  dsimp only [USV.tracking_logic]
  split_ifs <;>
    simp [set_course_only_course]

theorem speed_filter_fields (u : USV) (dt : ℚ) :
    (u.speed_filter dt).battery = u.battery ∧
    (u.speed_filter dt).status = u.status ∧
    (u.speed_filter dt).error_msg = u.error_msg ∧
    (u.speed_filter dt).target_speed = u.target_speed ∧
    (u.speed_filter dt).course = u.course ∧
    (u.speed_filter dt).assigned_target = u.assigned_target ∧
    (u.speed_filter dt).station_angle = u.station_angle ∧
    (u.speed_filter dt).station_dist = u.station_dist := by
  dsimp only [USV.speed_filter]
  split_ifs <;> simp

theorem movement_fields (O : MathOracle) (u : USV) (dt : ℚ) (g : Rng) :
    (u.movement O dt g).1.battery = u.battery ∧
    (u.movement O dt g).1.status = u.status ∧
    (u.movement O dt g).1.error_msg = u.error_msg ∧
    (u.movement O dt g).1.speed = u.speed ∧
    (u.movement O dt g).1.target_speed = u.target_speed ∧
    (u.movement O dt g).1.assigned_target = u.assigned_target ∧
    (u.movement O dt g).1.station_angle = u.station_angle ∧
    (u.movement O dt g).1.station_dist = u.station_dist := by
  dsimp only [USV.movement, Rng.uniform, Rng.next]
  split_ifs <;> simp

theorem status_update_fields (O : MathOracle) (u : USV) (tgt : Option AdversaryBoat)
    (dt : ℚ) (g : Rng) :
    (u.status_update O tgt dt g).1.battery = u.battery ∧
    (u.status_update O tgt dt g).1.speed = u.speed ∧
    (u.status_update O tgt dt g).1.assigned_target = u.assigned_target ∧
    (u.status_update O tgt dt g).1.station_angle = u.station_angle ∧
    (u.status_update O tgt dt g).1.station_dist = u.station_dist := by
  dsimp only [USV.status_update, Rng.next, Rng.choice]
  rcases tgt with _ | adv <;>
    split_ifs <;>
      simp [tracking_logic_fields]

/-- The method `step_sim` is the composition of its stages. -/
theorem step_sim_eq (O : MathOracle) (u : USV) (tgt : Option AdversaryBoat)
    (dt : ℚ) (g : Rng) :
    u.step_sim O tgt dt g =
      (let p := ((u.drain_battery dt).dead_battery_check).status_update O tgt dt g
       let u4 := p.1.speed_filter dt
       let u5 := if u4.battery ≤ 0 then { u4 with speed := 0 } else u4
       u5.movement O dt p.2) := rfl

/-- If the status after `status_update` is ERROR, the target speed was forced
to 0 (every path into or through ERROR sets it). -/
theorem status_update_error_ts (O : MathOracle) (u : USV)
    (tgt : Option AdversaryBoat) (dt : ℚ) (g : Rng) :
    (u.status_update O tgt dt g).1.status = "ERROR" →
      (u.status_update O tgt dt g).1.target_speed = 0 := by
  dsimp only [USV.status_update, Rng.next, Rng.choice]
  rcases tgt with _ | adv <;>
    split_ifs <;>
      simp_all [tracking_logic_fields]

/-- From an ERROR state, `status_update` either stays in ERROR with the same
cause, or (only for a recoverable cause) recovers to IDLE clearing the
cause. -/
theorem status_update_of_error (O : MathOracle) (u : USV)
    (tgt : Option AdversaryBoat) (dt : ℚ) (g : Rng) (h : u.status = "ERROR") :
    ((u.status_update O tgt dt g).1.status = "ERROR" ∧
     (u.status_update O tgt dt g).1.error_msg = u.error_msg) ∨
    ((u.error_msg = "GPS Signal Lost" ∨ u.error_msg = "Comms Timeout") ∧
     (u.status_update O tgt dt g).1.status = "IDLE" ∧
     (u.status_update O tgt dt g).1.error_msg = "") := by
  dsimp only [USV.status_update, Rng.next, Rng.choice]
  split_ifs <;> simp_all

/-- From a non-ERROR state with a dead battery, `status_update` draws nothing
and changes nothing. -/
theorem status_update_battery_nonpos (O : MathOracle) (u : USV)
    (tgt : Option AdversaryBoat) (dt : ℚ) (g : Rng) (h : u.status ≠ "ERROR")
    (hb : u.battery ≤ 0) :
    (u.status_update O tgt dt g).1 = u := by
  dsimp only [USV.status_update, Rng.next, Rng.choice]
  rcases tgt with _ | adv <;> split_ifs
  all_goals try simp_all
  all_goals exfalso; linarith

/-- From a non-ERROR state, `status_update` ends in ERROR, TRACKING, or with
the status unchanged. -/
theorem status_update_of_not_error (O : MathOracle) (u : USV)
    (tgt : Option AdversaryBoat) (dt : ℚ) (g : Rng) (h : u.status ≠ "ERROR") :
    (u.status_update O tgt dt g).1.status = "ERROR" ∨
    (u.status_update O tgt dt g).1.status = "TRACKING" ∨
    (u.status_update O tgt dt g).1.status = u.status := by
  dsimp only [USV.status_update, Rng.next, Rng.choice]
  rcases tgt with _ | adv <;>
    split_ifs <;>
      simp_all [tracking_logic_fields]

/-- How each field of the result of `step_sim` relates to the stages: status,
error cause and target speed are fixed by `status_update`; battery is fixed
by the drain; speed comes from the filter unless zeroed by the battery
clamp; the tactical assignment fields are untouched. -/
theorem step_sim_proj (O : MathOracle) (u : USV) (tgt : Option AdversaryBoat)
    (dt : ℚ) (g : Rng) :
    (u.step_sim O tgt dt g).1.status =
      (((u.drain_battery dt).dead_battery_check).status_update O tgt dt g).1.status ∧
    (u.step_sim O tgt dt g).1.error_msg =
      (((u.drain_battery dt).dead_battery_check).status_update O tgt dt g).1.error_msg ∧
    (u.step_sim O tgt dt g).1.target_speed =
      (((u.drain_battery dt).dead_battery_check).status_update O tgt dt g).1.target_speed ∧
    (u.step_sim O tgt dt g).1.battery = (u.drain_battery dt).battery ∧
    ((u.step_sim O tgt dt g).1.speed =
       (((((u.drain_battery dt).dead_battery_check).status_update O tgt dt g).1).speed_filter dt).speed ∨
     (u.step_sim O tgt dt g).1.speed = 0) ∧
    (u.step_sim O tgt dt g).1.assigned_target = u.assigned_target ∧
    (u.step_sim O tgt dt g).1.station_angle = u.station_angle ∧
    (u.step_sim O tgt dt g).1.station_dist = u.station_dist := by
  rw [step_sim_eq]
  dsimp only
  split_ifs <;>
    simp [movement_fields, speed_filter_fields, status_update_fields,
      dead_battery_check_fields, drain_battery_only_battery]

/-- With target speed 0, the speed filter decelerates: the new speed is
nonnegative and at most `max (speed - FRIENDLY_DECELERATION * dt) 0`. -/
theorem speed_filter_ts_zero (u : USV) (dt : ℚ) (hdt : 0 ≤ dt)
    (hts : u.target_speed = 0) (hs : 0 ≤ u.speed) :
    0 ≤ (u.speed_filter dt).speed ∧
    (u.speed_filter dt).speed ≤ max (u.speed - FRIENDLY_DECELERATION * dt) 0 := by
  dsimp only [USV.speed_filter]
  rw [hts]
  have habs : |0 - u.speed| = u.speed := by
    rw [zero_sub, abs_neg, abs_of_nonneg hs]
  rw [habs]
  split_ifs with h1 h2
  · exfalso
    linarith
  · dsimp only
    refine ⟨le_max_left 0 _, ?_⟩
    rcases le_total (FRIENDLY_DECELERATION * dt) u.speed with hle | hle
    · rw [min_eq_left hle, max_comm]
    · rw [min_eq_right hle, sub_self]
      simp
  · dsimp only
    exact ⟨le_refl 0, le_max_right _ _⟩

/-! ## Status and error-cause string facts (for concrete evaluation) -/

theorem sIdleError : ¬("IDLE" : String) = "ERROR" := by decide

theorem sTrackingError : ¬("TRACKING" : String) = "ERROR" := by decide

theorem sIdleTracking : ¬("IDLE" : String) = "TRACKING" := by decide

theorem sErrorTracking : ¬("ERROR" : String) = "TRACKING" := by decide

theorem sEmptyGps : ¬("" : String) = "GPS Signal Lost" := by decide

theorem sEmptyComms : ¬("" : String) = "Comms Timeout" := by decide

theorem sMotorGps : ¬("Motor Failure" : String) = "GPS Signal Lost" := by decide

theorem sMotorComms : ¬("Motor Failure" : String) = "Comms Timeout" := by decide

theorem sCommsGps : ¬("Comms Timeout" : String) = "GPS Signal Lost" := by decide

theorem sGpsComms : ¬("GPS Signal Lost" : String) = "Comms Timeout" := by decide

/-! ## Shared concrete inputs for witnesses and counterexamples -/

def O0 : MathOracle :=
  { cosD := fun _ => 0, sinD := fun _ => 0,
    atan2D := fun _ _ => 0, sqrtQ := fun _ => 0 }

def g0 : Rng := { stream := fun _ => 0, pos := 0 }

def gHalf : Rng := { stream := fun _ => 1/2, pos := 0 }

/-- An idle USV at full speed. -/
def usvFast : USV :=
  { id := 1, lat := 24, lon := 239/2, battery := 100, status := "IDLE",
    error_msg := "", course := 0, speed := 15, target_speed := 15,
    max_turn_rate := 15, assigned_target := none, station_angle := 0,
    station_dist := 0 }

/-- A tracking USV whose battery is just above the IDLE → TRACKING threshold
and about to drop below it, with no assigned target. -/
def usvLowBatt : USV :=
  { id := 2, lat := 24, lon := 239/2, battery := 101/20, status := "TRACKING",
    error_msg := "", course := 0, speed := 15, target_speed := 15,
    max_turn_rate := 15, assigned_target := none, station_angle := 0,
    station_dist := 0 }

/-! ## Claim C1 -/

/-- C1 as stated is false: on the tick in which ERROR is entered, the code
forces only the target speed to 0; the recorded speed decelerates at the
deceleration cap.  At this concrete input the vessel enters ERROR at speed
15 and the tick ends (and is snapshotted) in ERROR with speed 12 ≠ 0. -/
theorem c1_counterexample :
    (USV.step_sim O0 usvFast none 1 g0).1.status = "ERROR" ∧
    (USV.step_sim O0 usvFast none 1 g0).1.speed = 12 ∧
    (USV.step_sim O0 usvFast none 1 g0).1.speed ≠ 0 := by
  norm_num [USV.step_sim, USV.drain_battery, USV.dead_battery_check,
    USV.status_update, USV.speed_filter, USV.movement, Rng.next, Rng.uniform,
    Rng.choice, usvFast, O0, g0, ERROR_TRIGGER_RATE, FRIENDLY_DECELERATION,
    FRIENDLY_ACCELERATION, FRIENDLY_MAX_SPEED, pymod, sIdleError,
    sTrackingError, sIdleTracking, sErrorTracking, sEmptyGps, sEmptyComms,
    sMotorGps, sMotorComms]

/-- C1 amended: if a friendly vessel's status is ERROR at the end of a tick,
then that tick forced its target speed to 0 and its speed — still
nonnegative — was reduced by the full deceleration cap toward 0 (it is 0
only once deceleration has run its course, not necessarily on the tick in
which ERROR is entered). -/
theorem c1_error_forces_deceleration (O : MathOracle) (u : USV)
    (tgt : Option AdversaryBoat) (dt : ℚ) (g : Rng) (hdt : 0 ≤ dt)
    (hs : 0 ≤ u.speed) (h : (u.step_sim O tgt dt g).1.status = "ERROR") :
    (u.step_sim O tgt dt g).1.target_speed = 0 ∧
    0 ≤ (u.step_sim O tgt dt g).1.speed ∧
    (u.step_sim O tgt dt g).1.speed ≤
      max (u.speed - FRIENDLY_DECELERATION * dt) 0 := by
  obtain ⟨Pstat, _, Pts, _, Pspeed, _⟩ := step_sim_proj O u tgt dt g
  rw [Pstat] at h
  have hts3 := status_update_error_ts O
    ((u.drain_battery dt).dead_battery_check) tgt dt g h
  have hspeed3 :
      (((u.drain_battery dt).dead_battery_check).status_update O tgt dt g).1.speed
        = u.speed := by
    rw [(status_update_fields O ((u.drain_battery dt).dead_battery_check)
          tgt dt g).2.1,
        (dead_battery_check_fields (u.drain_battery dt)).2.1,
        (drain_battery_only_battery u dt).2.2.1]
  have hfilter := speed_filter_ts_zero
    ((((u.drain_battery dt).dead_battery_check).status_update O tgt dt g).1)
    dt hdt hts3 (by rw [hspeed3]; exact hs)
  rw [hspeed3] at hfilter
  refine ⟨by rw [Pts, hts3], ?_, ?_⟩
  · rcases Pspeed with h5 | h5
    · rw [h5]
      exact hfilter.1
    · rw [h5]
  · rcases Pspeed with h5 | h5
    · rw [h5]
      exact hfilter.2
    · rw [h5]
      exact le_max_right _ _

/-- Witness for the amended C1 at the concrete ERROR-entry input. -/
theorem c1_error_forces_deceleration_witness :
    (0:ℚ) ≤ 1 ∧ 0 ≤ usvFast.speed ∧
    (USV.step_sim O0 usvFast none 1 g0).1.status = "ERROR" ∧
    ((USV.step_sim O0 usvFast none 1 g0).1.target_speed = 0 ∧
     0 ≤ (USV.step_sim O0 usvFast none 1 g0).1.speed ∧
     (USV.step_sim O0 usvFast none 1 g0).1.speed ≤
       max (usvFast.speed - FRIENDLY_DECELERATION * 1) 0) :=
  ⟨by norm_num, by norm_num [usvFast],
   by
     norm_num [USV.step_sim, USV.drain_battery, USV.dead_battery_check,
       USV.status_update, USV.speed_filter, USV.movement, Rng.next,
       Rng.uniform, Rng.choice, usvFast, O0, g0, ERROR_TRIGGER_RATE,
       FRIENDLY_DECELERATION, FRIENDLY_ACCELERATION, FRIENDLY_MAX_SPEED,
       pymod, sIdleError, sTrackingError, sIdleTracking, sErrorTracking,
       sEmptyGps, sEmptyComms, sMotorGps, sMotorComms],
   c1_error_forces_deceleration O0 usvFast none 1 g0 (by norm_num)
     (by norm_num [usvFast])
     (by
       norm_num [USV.step_sim, USV.drain_battery, USV.dead_battery_check,
         USV.status_update, USV.speed_filter, USV.movement, Rng.next,
         Rng.uniform, Rng.choice, usvFast, O0, g0, ERROR_TRIGGER_RATE,
         FRIENDLY_DECELERATION, FRIENDLY_ACCELERATION, FRIENDLY_MAX_SPEED,
         pymod, sIdleError, sTrackingError, sIdleTracking, sErrorTracking,
         sEmptyGps, sEmptyComms, sMotorGps, sMotorComms])⟩

/-! ## Claim C2 -/

/-- C2 as stated is false: a TRACKING vessel whose battery has dropped to
the minimum operating threshold (here 5.05 → 4.97575 ≤ 5, the `battery > 5`
gate), and whose assigned target is unavailable, is still TRACKING — not
IDLE — at the end of the tick. -/
theorem c2_counterexample :
    usvLowBatt.status = "TRACKING" ∧ usvLowBatt.battery > 5 ∧
    usvLowBatt.assigned_target = none ∧
    (USV.step_sim O0 usvLowBatt none 1 gHalf).1.battery ≤ 5 ∧
    0 < (USV.step_sim O0 usvLowBatt none 1 gHalf).1.battery ∧
    (USV.step_sim O0 usvLowBatt none 1 gHalf).1.status = "TRACKING" := by
  norm_num [USV.step_sim, USV.drain_battery, USV.dead_battery_check,
    USV.status_update, USV.speed_filter, USV.movement, Rng.next, Rng.uniform,
    Rng.choice, usvLowBatt, O0, gHalf, ERROR_TRIGGER_RATE,
    FRIENDLY_DECELERATION, FRIENDLY_ACCELERATION, FRIENDLY_MAX_SPEED, pymod,
    sIdleError, sTrackingError, sIdleTracking, sErrorTracking, sEmptyGps,
    sEmptyComms, sMotorGps, sMotorComms]

/-- C2 amended: a TRACKING vessel reverts to IDLE in the tick in which its
battery (after the tick's drain) reaches 0; if the drained battery is still
positive, the tick ends in TRACKING (a battery merely at or below the
`battery > 5` tracking gate, or an unavailable target, does not revert the
status) or in ERROR (random error trigger). -/
theorem c2_tracking_to_idle (O : MathOracle) (u : USV)
    (tgt : Option AdversaryBoat) (dt : ℚ) (g : Rng)
    (h : u.status = "TRACKING") :
    ((u.drain_battery dt).battery ≤ 0 →
      (u.step_sim O tgt dt g).1.status = "IDLE") ∧
    (0 < (u.drain_battery dt).battery →
      (u.step_sim O tgt dt g).1.status = "TRACKING" ∨
      (u.step_sim O tgt dt g).1.status = "ERROR") := by
  obtain ⟨Pstat, _⟩ := step_sim_proj O u tgt dt g
  have hstat1 : (u.drain_battery dt).status = "TRACKING" := by
    rw [(drain_battery_only_battery u dt).1, h]
  constructor
  · intro hb
    have h2 := (dead_battery_check_status_ts (u.drain_battery dt)).1
    rw [if_pos ⟨hb, hstat1⟩] at h2
    have hb2 : ((u.drain_battery dt).dead_battery_check).battery ≤ 0 := by
      rw [(dead_battery_check_fields _).1]
      exact hb
    have hne : ((u.drain_battery dt).dead_battery_check).status ≠ "ERROR" := by
      rw [h2]
      exact sIdleError
    have hfix := status_update_battery_nonpos O _ tgt dt g hne hb2
    rw [Pstat, hfix, h2]
  · intro hb
    have h2 := (dead_battery_check_status_ts (u.drain_battery dt)).1
    rw [if_neg (fun hc => absurd hc.1 (not_le.mpr hb))] at h2
    have hne : ((u.drain_battery dt).dead_battery_check).status ≠ "ERROR" := by
      rw [h2, hstat1]
      exact sTrackingError
    rcases status_update_of_not_error O _ tgt dt g hne with hE | hT | hU
    · right
      rw [Pstat]
      exact hE
    · left
      rw [Pstat]
      exact hT
    · left
      rw [Pstat, hU, h2, hstat1]

/-- Witness for the amended C2 at a concrete TRACKING input whose drained
battery stays positive. -/
theorem c2_tracking_to_idle_witness :
    usvLowBatt.status = "TRACKING" ∧
    (((usvLowBatt.drain_battery 1).battery ≤ 0 →
       (USV.step_sim O0 usvLowBatt none 1 gHalf).1.status = "IDLE") ∧
     (0 < (usvLowBatt.drain_battery 1).battery →
       (USV.step_sim O0 usvLowBatt none 1 gHalf).1.status = "TRACKING" ∨
       (USV.step_sim O0 usvLowBatt none 1 gHalf).1.status = "ERROR")) :=
  ⟨by norm_num [usvLowBatt],
   c2_tracking_to_idle O0 usvLowBatt none 1 gHalf (by norm_num [usvLowBatt])⟩

/-! ## Claim C4 -/

/-- Battery after the drain stage: bounded by the old value and still
nonnegative. -/
theorem drain_battery_le (u : USV) (dt : ℚ) (hdt : 0 ≤ dt)
    (hb : 0 ≤ u.battery) :
    (u.drain_battery dt).battery ≤ u.battery ∧
    0 ≤ (u.drain_battery dt).battery := by
  rw [drain_battery_battery]
  have hd : 0 ≤ u.speed ^ 2 * (33/100000) * dt :=
    mul_nonneg (mul_nonneg (sq_nonneg _) (by norm_num)) hdt
  split_ifs with h1 h2
  · exact ⟨hb, le_refl 0⟩
  · exact ⟨sub_le_self _ hd, not_lt.mp h2⟩
  · exact ⟨le_refl _, hb⟩

/-- The per-tick wrapper of the simulation loop around `step_sim` only
steers and re-targets before stepping: the vessel it actually steps agrees
with `u` on battery, speed, status, error cause and the assignment
fields. -/
theorem usvTick_eq (O : MathOracle) (advs : List AdversaryBoat) (u : USV)
    (g : Rng) :
    ∃ v : USV,
      usvTick O advs u g =
        v.step_sim O (u.assigned_target.bind advs.get?) SIMULATION_STEP_SEC g ∧
      v.battery = u.battery ∧ v.speed = u.speed ∧ v.status = u.status ∧
      v.error_msg = u.error_msg ∧ v.assigned_target = u.assigned_target ∧
      v.station_angle = u.station_angle ∧ v.station_dist = u.station_dist := by
  dsimp only [usvTick]
  split_ifs with h1 h2
  · refine ⟨_, rfl, ?_⟩
    simp [set_course_only_course]
  · refine ⟨_, rfl, ?_⟩
    simp [set_course_only_course]
  · exact ⟨u, rfl, rfl, rfl, rfl, rfl, rfl, rfl, rfl⟩

/-- C4: over a tick of `step_sim` (and over the full loop-body tick), a
friendly vessel's battery never increases and never becomes negative; when
speed > 0 it is reduced by exactly `speed² * 0.00033 * dt` (clamped at 0),
and when speed = 0 it is unchanged. -/
theorem c4_battery_monotone (O : MathOracle) (u : USV)
    (tgt : Option AdversaryBoat) (dt : ℚ) (g : Rng)
    (advs : List AdversaryBoat) (hdt : 0 ≤ dt) (hb : 0 ≤ u.battery) :
    ((u.step_sim O tgt dt g).1.battery ≤ u.battery ∧
     0 ≤ (u.step_sim O tgt dt g).1.battery) ∧
    (0 < u.speed →
      (u.step_sim O tgt dt g).1.battery =
        max 0 (u.battery - u.speed ^ 2 * (33/100000) * dt)) ∧
    (u.speed ≤ 0 → (u.step_sim O tgt dt g).1.battery = u.battery) ∧
    ((usvTick O advs u g).1.battery ≤ u.battery ∧
     0 ≤ (usvTick O advs u g).1.battery) := by
  have Pbat := (step_sim_proj O u tgt dt g).2.2.2.1
  have hmax : ∀ x : ℚ, (if x < 0 then (0:ℚ) else x) = max 0 x := by
    intro x
    split_ifs with h
    · exact (max_eq_left h.le).symm
    · exact (max_eq_right (not_lt.mp h)).symm
  refine ⟨?_, ?_, ?_, ?_⟩
  · rw [Pbat]
    exact drain_battery_le u dt hdt hb
  · intro hs
    rw [Pbat, drain_battery_battery, if_pos hs, hmax]
  · intro hs
    rw [Pbat, drain_battery_battery, if_neg (not_lt.mpr hs)]
  · obtain ⟨v, hv, hvb, hrest⟩ := usvTick_eq O advs u g
    rw [hv, (step_sim_proj O v _ SIMULATION_STEP_SEC g).2.2.2.1]
    have := drain_battery_le v SIMULATION_STEP_SEC (by norm_num [SIMULATION_STEP_SEC])
      (by rw [hvb]; exact hb)
    rw [hvb] at this
    exact this

/-- Witness for C4 at a concrete moving vessel. -/
theorem c4_battery_monotone_witness :
    (0:ℚ) ≤ 1 ∧ 0 ≤ usvFast.battery ∧
    (((USV.step_sim O0 usvFast none 1 g0).1.battery ≤ usvFast.battery ∧
      0 ≤ (USV.step_sim O0 usvFast none 1 g0).1.battery) ∧
     (0 < usvFast.speed →
       (USV.step_sim O0 usvFast none 1 g0).1.battery =
         max 0 (usvFast.battery - usvFast.speed ^ 2 * (33/100000) * 1)) ∧
     (usvFast.speed ≤ 0 →
       (USV.step_sim O0 usvFast none 1 g0).1.battery = usvFast.battery) ∧
     ((usvTick O0 [] usvFast g0).1.battery ≤ usvFast.battery ∧
      0 ≤ (usvTick O0 [] usvFast g0).1.battery)) :=
  ⟨by norm_num, by norm_num [usvFast],
   c4_battery_monotone O0 usvFast none 1 g0 [] (by norm_num)
     (by norm_num [usvFast])⟩

/-! ## Claim C9 -/

/-- Iterated ticks of a vessel: each list entry carries the resolved target,
the tick duration and the random state for that tick. -/
def USV.stepMany (O : MathOracle) (u : USV) :
    List (Option AdversaryBoat × ℚ × Rng) → USV
  | [] => u
  | i :: is => ((u.step_sim O i.1 i.2.1 i.2.2).1).stepMany O is

/-- One tick from ERROR: either still in ERROR with the same cause, or —
only for a recoverable cause — recovered to IDLE with the cause cleared. -/
theorem step_sim_of_error (O : MathOracle) (u : USV)
    (tgt : Option AdversaryBoat) (dt : ℚ) (g : Rng) (h : u.status = "ERROR") :
    ((u.step_sim O tgt dt g).1.status = "ERROR" ∧
     (u.step_sim O tgt dt g).1.error_msg = u.error_msg) ∨
    ((u.error_msg = "GPS Signal Lost" ∨ u.error_msg = "Comms Timeout") ∧
     (u.step_sim O tgt dt g).1.status = "IDLE" ∧
     (u.step_sim O tgt dt g).1.error_msg = "") := by
  obtain ⟨Pstat, Pmsg, _⟩ := step_sim_proj O u tgt dt g
  have hstat1 : (u.drain_battery dt).status = "ERROR" := by
    rw [(drain_battery_only_battery u dt).1, h]
  have hstat2 : ((u.drain_battery dt).dead_battery_check).status = "ERROR" := by
    rw [(dead_battery_check_status_ts (u.drain_battery dt)).1,
      if_neg (fun hc => absurd (hstat1 ▸ hc.2) sErrorTracking), hstat1]
  have hmsg2 : ((u.drain_battery dt).dead_battery_check).error_msg =
      u.error_msg := by
    rw [(dead_battery_check_fields (u.drain_battery dt)).2.2.1,
      (drain_battery_only_battery u dt).2.1]
  rcases status_update_of_error O _ tgt dt g hstat2 with ⟨hE, hM⟩ | ⟨hrec, hI, hM⟩
  · left
    rw [Pstat, Pmsg, hM, hmsg2]
    exact ⟨hE, rfl⟩
  · right
    rw [hmsg2] at hrec
    rw [Pstat, Pmsg]
    exact ⟨hrec, hI, hM⟩

/-- C9: a vessel in ERROR with the permanent cause "Motor Failure" stays in
ERROR with that cause through any number of subsequent ticks; and from
ERROR the only possible exit in a tick is to IDLE, available only to the
recoverable causes, and it clears the error detail. -/
theorem c9_error_permanence :
    (∀ (O : MathOracle) (u : USV) (l : List (Option AdversaryBoat × ℚ × Rng)),
      u.status = "ERROR" → u.error_msg = "Motor Failure" →
      (u.stepMany O l).status = "ERROR" ∧
      (u.stepMany O l).error_msg = "Motor Failure") ∧
    (∀ (O : MathOracle) (u : USV) (tgt : Option AdversaryBoat) (dt : ℚ)
       (g : Rng), u.status = "ERROR" →
      ((u.step_sim O tgt dt g).1.status = "ERROR" ∧
       (u.step_sim O tgt dt g).1.error_msg = u.error_msg) ∨
      ((u.error_msg = "GPS Signal Lost" ∨ u.error_msg = "Comms Timeout") ∧
       (u.step_sim O tgt dt g).1.status = "IDLE" ∧
       (u.step_sim O tgt dt g).1.error_msg = "")) := by
  constructor
  · intro O u l
    induction l generalizing u with
    | nil => exact fun h hm => ⟨h, hm⟩
    | cons i is ih =>
      intro h hm
      rcases step_sim_of_error O u i.1 i.2.1 i.2.2 h with ⟨hE, hM⟩ | ⟨hrec, _⟩
      · exact ih _ hE (hM.trans hm)
      · rw [hm] at hrec
        rcases hrec with hc | hc
        · exact absurd hc sMotorGps
        · exact absurd hc sMotorComms
  · exact step_sim_of_error

/-- A vessel stuck in ERROR with the permanent cause. -/
def usvBroken : USV :=
  { id := 3, lat := 24, lon := 239/2, battery := 80, status := "ERROR",
    error_msg := "Motor Failure", course := 0, speed := 0, target_speed := 0,
    max_turn_rate := 15, assigned_target := none, station_angle := 0,
    station_dist := 0 }

/-- Witness for C9 at a concrete broken vessel over two further ticks. -/
theorem c9_error_permanence_witness :
    usvBroken.status = "ERROR" ∧ usvBroken.error_msg = "Motor Failure" ∧
    ((usvBroken.stepMany O0 [(none, 1, g0), (none, 1, gHalf)]).status = "ERROR" ∧
     (usvBroken.stepMany O0 [(none, 1, g0), (none, 1, gHalf)]).error_msg =
       "Motor Failure") ∧
    (((USV.step_sim O0 usvBroken none 1 g0).1.status = "ERROR" ∧
      (USV.step_sim O0 usvBroken none 1 g0).1.error_msg = usvBroken.error_msg) ∨
     ((usvBroken.error_msg = "GPS Signal Lost" ∨
       usvBroken.error_msg = "Comms Timeout") ∧
      (USV.step_sim O0 usvBroken none 1 g0).1.status = "IDLE" ∧
      (USV.step_sim O0 usvBroken none 1 g0).1.error_msg = "")) :=
  ⟨rfl, rfl,
   c9_error_permanence.1 O0 usvBroken [(none, 1, g0), (none, 1, gHalf)] rfl rfl,
   c9_error_permanence.2 O0 usvBroken none 1 g0 rfl⟩

/-! ## Claim C3: stage lemmas -/

theorem retarget_fields (b : AdversaryBoat) (dt : ℚ) (g : Rng) :
    (b.retarget dt g).1.speed = b.speed ∧
    (b.retarget dt g).1.course = b.course ∧
    (b.retarget dt g).1.max_turn_rate = b.max_turn_rate := by
  dsimp only [AdversaryBoat.retarget, Rng.next, Rng.uniform]
  exact ⟨rfl, rfl, rfl⟩

theorem retarget_bounds (b : AdversaryBoat) (dt : ℚ) (g : Rng)
    (hst : StreamOk g.stream) (hdt : 0 ≤ dt)
    (htc : 0 ≤ b.target_course ∧ b.target_course < 360)
    (hts : 0 ≤ b.target_speed ∧ b.target_speed ≤ ADVERSARY_MAX_SPEED) :
    (0 ≤ (b.retarget dt g).1.target_course ∧
     (b.retarget dt g).1.target_course < 360) ∧
    (0 ≤ (b.retarget dt g).1.target_speed ∧
     (b.retarget dt g).1.target_speed ≤ ADVERSARY_MAX_SPEED) := by
  simp only [ADVERSARY_MAX_SPEED] at hts ⊢
  dsimp only [AdversaryBoat.retarget, Rng.next, Rng.uniform,
    ADVERSARY_MAX_SPEED]
  split_ifs <;>
    dsimp only <;>
      refine ⟨⟨?_, ?_⟩, ?_, ?_⟩ <;>
        linarith [(hst g.pos).1, (hst g.pos).2,
          (hst (g.pos + 1)).1, (hst (g.pos + 1)).2,
          (hst (g.pos + 1 + 1)).1, (hst (g.pos + 1 + 1)).2,
          (hst (g.pos + 1 + 1 + 1)).1, (hst (g.pos + 1 + 1 + 1)).2,
          htc.1, htc.2, hts.1, hts.2]

theorem filter_speed_fields (b : AdversaryBoat) (dt : ℚ) :
    (b.filter_speed dt).target_speed = b.target_speed ∧
    (b.filter_speed dt).course = b.course ∧
    (b.filter_speed dt).target_course = b.target_course ∧
    (b.filter_speed dt).max_turn_rate = b.max_turn_rate := by
  dsimp only [AdversaryBoat.filter_speed]
  split_ifs <;> simp

theorem filter_speed_bounds (b : AdversaryBoat) (dt : ℚ) (hdt : 0 ≤ dt)
    (hs : 0 ≤ b.speed ∧ b.speed ≤ ADVERSARY_MAX_SPEED)
    (hts : 0 ≤ b.target_speed ∧ b.target_speed ≤ ADVERSARY_MAX_SPEED) :
    0 ≤ (b.filter_speed dt).speed ∧
    (b.filter_speed dt).speed ≤ ADVERSARY_MAX_SPEED := by
  simp only [ADVERSARY_MAX_SPEED] at hs hts ⊢
  dsimp only [AdversaryBoat.filter_speed, ADVERSARY_ACCELERATION,
    ADVERSARY_DECELERATION]
  split_ifs with h1 h2
  · have hmin1 : min (3/2 * dt) (b.target_speed - b.speed) ≤
        b.target_speed - b.speed := min_le_right _ _
    have hmin2 : 0 ≤ min (3/2 * dt) (b.target_speed - b.speed) :=
      le_min (by linarith) (by linarith)
    exact ⟨by dsimp only; linarith, by dsimp only; linarith⟩
  · have habs : |b.target_speed - b.speed| = b.speed - b.target_speed := by
      rw [abs_of_nonpos (by linarith)]
      ring
    rw [habs]
    have hmin1 : min (5/2 * dt) (b.speed - b.target_speed) ≤
        b.speed - b.target_speed := min_le_right _ _
    have hmin2 : 0 ≤ min (5/2 * dt) (b.speed - b.target_speed) :=
      le_min (by linarith) (by linarith)
    exact ⟨by dsimp only; linarith, by dsimp only; linarith⟩
  · exact hts

theorem turn_fields (b : AdversaryBoat) (dt : ℚ) :
    (b.turn dt).speed = b.speed ∧
    (b.turn dt).target_speed = b.target_speed ∧
    (b.turn dt).target_course = b.target_course := by
  dsimp only [AdversaryBoat.turn]
  split_ifs <;> simp

theorem turn_course_bound (b : AdversaryBoat) (dt : ℚ)
    (htc : 0 ≤ b.target_course ∧ b.target_course < 360) :
    0 ≤ (b.turn dt).course ∧ (b.turn dt).course < 360 := by
  dsimp only [AdversaryBoat.turn]
  split_ifs <;>
    first
    | exact ⟨pymod_nonneg _ _ (by norm_num), pymod_lt _ _ (by norm_num)⟩
    | exact htc

theorem adv_move_fields (O : MathOracle) (b : AdversaryBoat) (dt : ℚ)
    (g : Rng) :
    (b.move O dt g).1.speed = b.speed ∧
    (b.move O dt g).1.target_speed = b.target_speed ∧
    (b.move O dt g).1.target_course = b.target_course := by
  dsimp only [AdversaryBoat.move, Rng.next, Rng.uniform]
  split_ifs <;> simp

theorem adv_move_course (O : MathOracle) (b : AdversaryBoat) (dt : ℚ)
    (g : Rng) (hc : 0 ≤ b.course ∧ b.course < 360) :
    0 ≤ (b.move O dt g).1.course ∧ (b.move O dt g).1.course < 360 := by
  dsimp only [AdversaryBoat.move, Rng.next, Rng.uniform]
  split_ifs <;>
    first
    | exact ⟨pymod_nonneg _ _ (by norm_num), pymod_lt _ _ (by norm_num)⟩
    | exact hc

theorem adversary_step_eq (O : MathOracle) (b : AdversaryBoat) (dt : ℚ)
    (g : Rng) :
    b.step_sim O dt g =
      ((((b.retarget dt g).1.filter_speed dt).turn dt).move O dt
        (b.retarget dt g).2) := rfl

theorem calculate_bearing_bounds (O : MathOracle) (lat1 lon1 lat2 lon2 : ℚ) :
    0 ≤ calculate_bearing O lat1 lon1 lat2 lon2 ∧
    calculate_bearing O lat1 lon1 lat2 lon2 < 360 := by
  dsimp only [calculate_bearing]
  exact ⟨pymod_nonneg _ _ (by norm_num), pymod_lt _ _ (by norm_num)⟩

theorem set_course_course_bound (u : USV) (tc : ℚ)
    (h : 0 ≤ tc ∧ tc < 360) :
    0 ≤ (u.set_course tc).course ∧ (u.set_course tc).course < 360 := by
  dsimp only [USV.set_course]
  split_ifs <;>
    first
    | exact ⟨pymod_nonneg _ _ (by norm_num), pymod_lt _ _ (by norm_num)⟩
    | exact h

theorem tracking_logic_bounds (O : MathOracle) (u : USV) (adv : AdversaryBoat)
    (hadv : 0 ≤ adv.speed ∧ adv.speed ≤ ADVERSARY_MAX_SPEED) :
    (0 ≤ (u.tracking_logic O adv).target_speed ∧
     (u.tracking_logic O adv).target_speed ≤ FRIENDLY_MAX_SPEED) ∧
    (0 ≤ (u.tracking_logic O adv).course ∧
     (u.tracking_logic O adv).course < 360) := by
  simp only [ADVERSARY_MAX_SPEED] at hadv
  have hb := calculate_bearing_bounds O u.lat u.lon adv.lat adv.lon
  dsimp only [USV.tracking_logic]
  split_ifs with h1 h2 h3 h4
  · refine ⟨?_, set_course_course_bound _ _
      ⟨pymod_nonneg _ _ (by norm_num), pymod_lt _ _ (by norm_num)⟩⟩
    rw [(set_course_only_course _ _).2.2.2.1]
    exact ⟨by norm_num, by norm_num [FRIENDLY_MAX_SPEED]⟩
  · refine ⟨?_, set_course_course_bound _ _ hb⟩
    rw [(set_course_only_course _ _).2.2.2.1]
    exact ⟨by norm_num [FRIENDLY_MAX_SPEED], le_refl _⟩
  · refine ⟨?_, set_course_course_bound _ _ hb⟩
    rw [(set_course_only_course _ _).2.2.2.1]
    exact ⟨by norm_num, by norm_num [FRIENDLY_MAX_SPEED]⟩
  · refine ⟨?_, set_course_course_bound _ _ hb⟩
    rw [(set_course_only_course _ _).2.2.2.1]
    constructor
    · show 0 ≤ adv.speed
      exact hadv.1
    · show adv.speed ≤ FRIENDLY_MAX_SPEED
      simp only [FRIENDLY_MAX_SPEED]
      linarith
  · refine ⟨?_, set_course_course_bound _ _ hb⟩
    rw [(set_course_only_course _ _).2.2.2.1]
    constructor
    · show 0 ≤ max 2 (adv.speed - 1)
      exact le_trans (by norm_num) (le_max_left 2 (adv.speed - 1))
    · show max 2 (adv.speed - 1) ≤ FRIENDLY_MAX_SPEED
      simp only [FRIENDLY_MAX_SPEED]
      exact max_le (by norm_num) (by linarith)

theorem status_update_bounds (O : MathOracle) (u : USV)
    (tgt : Option AdversaryBoat) (dt : ℚ) (g : Rng)
    (hts : 0 ≤ u.target_speed ∧ u.target_speed ≤ FRIENDLY_MAX_SPEED)
    (hc : 0 ≤ u.course ∧ u.course < 360)
    (hadv : ∀ a, tgt = some a → 0 ≤ a.speed ∧ a.speed ≤ ADVERSARY_MAX_SPEED) :
    (0 ≤ (u.status_update O tgt dt g).1.target_speed ∧
     (u.status_update O tgt dt g).1.target_speed ≤ FRIENDLY_MAX_SPEED) ∧
    (0 ≤ (u.status_update O tgt dt g).1.course ∧
     (u.status_update O tgt dt g).1.course < 360) := by
  dsimp only [USV.status_update, Rng.next, Rng.choice]
  rcases tgt with _ | adv <;>
    split_ifs <;>
      first
      | exact ⟨⟨le_refl 0, by norm_num [FRIENDLY_MAX_SPEED]⟩, hc⟩
      | exact ⟨hts, hc⟩
      | exact tracking_logic_bounds O _ adv (hadv adv rfl)

theorem speed_filter_bounds (u : USV) (dt : ℚ) (hdt : 0 ≤ dt)
    (hs : 0 ≤ u.speed ∧ u.speed ≤ FRIENDLY_MAX_SPEED)
    (hts : 0 ≤ u.target_speed ∧ u.target_speed ≤ FRIENDLY_MAX_SPEED) :
    0 ≤ (u.speed_filter dt).speed ∧
    (u.speed_filter dt).speed ≤ FRIENDLY_MAX_SPEED := by
  simp only [FRIENDLY_MAX_SPEED] at hs hts ⊢
  dsimp only [USV.speed_filter, FRIENDLY_MAX_SPEED, FRIENDLY_ACCELERATION,
    FRIENDLY_DECELERATION]
  split_ifs with h1 h2
  · have hmin : 0 ≤ min (2 * dt) (u.target_speed - u.speed) :=
      le_min (by linarith) (by linarith)
    exact ⟨by dsimp only; exact le_min (by norm_num) (by linarith),
           by dsimp only; exact min_le_left _ _⟩
  · have hmin : 0 ≤ min (3 * dt) |u.target_speed - u.speed| :=
      le_min (by linarith) (abs_nonneg _)
    exact ⟨by dsimp only; exact le_max_left 0 _,
           by dsimp only; exact max_le (by norm_num) (by linarith)⟩
  · exact hts

theorem movement_course (O : MathOracle) (u : USV) (dt : ℚ) (g : Rng)
    (hc : 0 ≤ u.course ∧ u.course < 360) :
    0 ≤ (u.movement O dt g).1.course ∧ (u.movement O dt g).1.course < 360 := by
  dsimp only [USV.movement, Rng.next, Rng.uniform]
  split_ifs <;>
    first
    | exact ⟨pymod_nonneg _ _ (by norm_num), pymod_lt _ _ (by norm_num)⟩
    | exact hc

/-! ## Claim C3: the invariants -/

/-- The C3 invariant for an adversary: speed and target speed within
`[0, ADVERSARY_MAX_SPEED]`, course and target course within `[0, 360)`. -/
def AdversaryBoat.Inv (b : AdversaryBoat) : Prop :=
  (0 ≤ b.speed ∧ b.speed ≤ ADVERSARY_MAX_SPEED) ∧
  (0 ≤ b.target_speed ∧ b.target_speed ≤ ADVERSARY_MAX_SPEED) ∧
  (0 ≤ b.course ∧ b.course < 360) ∧
  (0 ≤ b.target_course ∧ b.target_course < 360)

/-- The C3 invariant for a friendly vessel: speed and target speed within
`[0, FRIENDLY_MAX_SPEED]`, course within `[0, 360)`. -/
def USV.Inv (u : USV) : Prop :=
  (0 ≤ u.speed ∧ u.speed ≤ FRIENDLY_MAX_SPEED) ∧
  (0 ≤ u.target_speed ∧ u.target_speed ≤ FRIENDLY_MAX_SPEED) ∧
  (0 ≤ u.course ∧ u.course < 360)

theorem adversary_step_inv (O : MathOracle) (b : AdversaryBoat) (dt : ℚ)
    (g : Rng) (hst : StreamOk g.stream) (hdt : 0 ≤ dt) (h : b.Inv) :
    ((b.step_sim O dt g).1).Inv := by
  obtain ⟨hs, hts, hc, htc⟩ := h
  rw [adversary_step_eq]
  have h1 := retarget_fields b dt g
  have h1b := retarget_bounds b dt g hst hdt htc hts
  have h2 := filter_speed_fields (b.retarget dt g).1 dt
  have h2b := filter_speed_bounds (b.retarget dt g).1 dt hdt
    (by rw [h1.1]; exact hs) h1b.2
  have h3 := turn_fields ((b.retarget dt g).1.filter_speed dt) dt
  have h3b := turn_course_bound ((b.retarget dt g).1.filter_speed dt) dt
    (by rw [h2.2.2.1]; exact h1b.1)
  have h4 := adv_move_fields O (((b.retarget dt g).1.filter_speed dt).turn dt)
    dt (b.retarget dt g).2
  have h4b := adv_move_course O (((b.retarget dt g).1.filter_speed dt).turn dt)
    dt (b.retarget dt g).2 h3b
  refine ⟨?_, ?_, h4b, ?_⟩
  · rw [h4.1, h3.1]
    exact h2b
  · rw [h4.2.1, h3.2.1, h2.1]
    exact h1b.2
  · rw [h4.2.2, h3.2.2, h2.2.2.1]
    exact h1b.1

theorem usv_step_inv (O : MathOracle) (u : USV) (tgt : Option AdversaryBoat)
    (dt : ℚ) (g : Rng) (hdt : 0 ≤ dt) (h : u.Inv)
    (hadv : ∀ a, tgt = some a → 0 ≤ a.speed ∧ a.speed ≤ ADVERSARY_MAX_SPEED) :
    ((u.step_sim O tgt dt g).1).Inv := by
  obtain ⟨hs, hts, hc⟩ := h
  have hts2 : 0 ≤ ((u.drain_battery dt).dead_battery_check).target_speed ∧
      ((u.drain_battery dt).dead_battery_check).target_speed ≤
        FRIENDLY_MAX_SPEED := by
    rw [(dead_battery_check_status_ts (u.drain_battery dt)).2]
    split_ifs
    · exact ⟨le_refl 0, by norm_num [FRIENDLY_MAX_SPEED]⟩
    · rw [(drain_battery_only_battery u dt).2.2.2.1]
      exact hts
  have hc2 : 0 ≤ ((u.drain_battery dt).dead_battery_check).course ∧
      ((u.drain_battery dt).dead_battery_check).course < 360 := by
    rw [(dead_battery_check_fields (u.drain_battery dt)).2.2.2.1,
      (drain_battery_only_battery u dt).2.2.2.2.1]
    exact hc
  have hsb := status_update_bounds O ((u.drain_battery dt).dead_battery_check)
    tgt dt g hts2 hc2 hadv
  have hsp3 :
      (((u.drain_battery dt).dead_battery_check).status_update O tgt dt g).1.speed
        = u.speed := by
    rw [(status_update_fields O ((u.drain_battery dt).dead_battery_check)
          tgt dt g).2.1,
        (dead_battery_check_fields (u.drain_battery dt)).2.1,
        (drain_battery_only_battery u dt).2.2.1]
  have hf := speed_filter_bounds
    ((((u.drain_battery dt).dead_battery_check).status_update O tgt dt g).1)
    dt hdt (by rw [hsp3]; exact hs) hsb.1
  rw [step_sim_eq]
  dsimp only
  split_ifs with hclamp
  · refine ⟨?_, ?_, ?_⟩
    · rw [(movement_fields O _ dt _).2.2.2.1]
      exact ⟨le_refl 0, by norm_num [FRIENDLY_MAX_SPEED]⟩
    · rw [(movement_fields O _ dt _).2.2.2.2.1]
      dsimp only
      rw [(speed_filter_fields _ dt).2.2.2.1]
      exact hsb.1
    · refine movement_course O _ dt _ ?_
      dsimp only
      rw [(speed_filter_fields _ dt).2.2.2.2.1]
      exact hsb.2
  · refine ⟨?_, ?_, ?_⟩
    · rw [(movement_fields O _ dt _).2.2.2.1]
      exact hf
    · rw [(movement_fields O _ dt _).2.2.2.2.1,
        (speed_filter_fields _ dt).2.2.2.1]
      exact hsb.1
    · refine movement_course O _ dt _ ?_
      rw [(speed_filter_fields _ dt).2.2.2.2.1]
      exact hsb.2

theorem usvTick_inv (O : MathOracle) (advs : List AdversaryBoat) (u : USV)
    (g : Rng) (h : u.Inv)
    (hadv : ∀ a ∈ advs, 0 ≤ a.speed ∧ a.speed ≤ ADVERSARY_MAX_SPEED) :
    ((usvTick O advs u g).1).Inv := by
  have htgt : ∀ a, u.assigned_target.bind advs.get? = some a →
      0 ≤ a.speed ∧ a.speed ≤ ADVERSARY_MAX_SPEED := by
    intro a ha
    rcases hi : u.assigned_target with _ | i
    · rw [hi] at ha
      exact absurd ha (by simp)
    · rw [hi] at ha
      simp only [Option.bind] at ha
      exact hadv a (List.get?_mem ha)
  obtain ⟨hs, hts, hc⟩ := h
  have hdt1 : (0:ℚ) ≤ SIMULATION_STEP_SEC := by norm_num [SIMULATION_STEP_SEC]
  dsimp only [usvTick]
  split_ifs with h1 h2
  · refine usv_step_inv O _ _ _ _ hdt1 ⟨?_, ?_, ?_⟩ htgt
    · dsimp only
      rw [(set_course_only_course u _).2.2.1]
      exact hs
    · dsimp only
      exact ⟨by norm_num [FRIENDLY_MAX_SPEED], le_refl _⟩
    · dsimp only
      exact set_course_course_bound u _ (calculate_bearing_bounds O _ _ _ _)
  · refine usv_step_inv O _ _ _ _ hdt1 ⟨?_, ?_, ?_⟩ htgt
    · dsimp only
      rw [(set_course_only_course u _).2.2.1]
      exact hs
    · dsimp only
      rcases hopt : u.assigned_target.bind advs.get? with _ | a

      · simp only [Option.map, Option.getD]
        exact ⟨le_refl 0, by norm_num [FRIENDLY_MAX_SPEED]⟩
      · simp only [Option.map, Option.getD]
        have := htgt a hopt
        simp only [ADVERSARY_MAX_SPEED] at this
        exact ⟨this.1, by norm_num [FRIENDLY_MAX_SPEED]; linarith [this.2]⟩
    · dsimp only
      exact set_course_course_bound u _ (calculate_bearing_bounds O _ _ _ _)
  · exact usv_step_inv O u _ SIMULATION_STEP_SEC g hdt1 ⟨hs, hts, hc⟩ htgt

/-- C3: every tick keeps every vessel's speed in `[0, faction max]`
(`FRIENDLY_MAX_SPEED = 15` for USVs, `ADVERSARY_MAX_SPEED = 10` for
adversaries) and its heading in `[0, 360)` — stated as preservation of the
invariants by the adversary step, the USV step, and the full loop-body USV
tick. -/
theorem c3_speed_heading_bounds :
    (∀ (O : MathOracle) (b : AdversaryBoat) (dt : ℚ) (g : Rng),
       StreamOk g.stream → 0 ≤ dt → b.Inv → ((b.step_sim O dt g).1).Inv) ∧
    (∀ (O : MathOracle) (u : USV) (tgt : Option AdversaryBoat) (dt : ℚ)
       (g : Rng), 0 ≤ dt → u.Inv →
       (∀ a, tgt = some a → 0 ≤ a.speed ∧ a.speed ≤ ADVERSARY_MAX_SPEED) →
       ((u.step_sim O tgt dt g).1).Inv) ∧
    (∀ (O : MathOracle) (advs : List AdversaryBoat) (u : USV) (g : Rng),
       u.Inv → (∀ a ∈ advs, 0 ≤ a.speed ∧ a.speed ≤ ADVERSARY_MAX_SPEED) →
       ((usvTick O advs u g).1).Inv) :=
  ⟨adversary_step_inv, usv_step_inv, usvTick_inv⟩

/-- A concrete adversary satisfying the invariant. -/
def advConc : AdversaryBoat :=
  { id := 1, lat := 24, lon := 239/2, course := 90, speed := 5,
    target_speed := 5, target_course := 90, max_turn_rate := 8 }

/-- Witness for C3 at concrete vessels and a concrete stream. -/
theorem c3_speed_heading_bounds_witness :
    StreamOk gHalf.stream ∧ advConc.Inv ∧ usvFast.Inv ∧
    (((advConc.step_sim O0 1 gHalf).1).Inv ∧
     ((USV.step_sim O0 usvFast none 1 gHalf).1).Inv ∧
     ((usvTick O0 [] usvFast gHalf).1).Inv) :=
  ⟨fun n => ⟨by norm_num [gHalf], by norm_num [gHalf]⟩,
   by
     norm_num [AdversaryBoat.Inv, advConc, ADVERSARY_MAX_SPEED],
   by
     norm_num [USV.Inv, usvFast, FRIENDLY_MAX_SPEED],
   c3_speed_heading_bounds.1 O0 advConc 1 gHalf
     (fun n => ⟨by norm_num [gHalf], by norm_num [gHalf]⟩) (by norm_num)
     (by norm_num [AdversaryBoat.Inv, advConc, ADVERSARY_MAX_SPEED]),
   c3_speed_heading_bounds.2.1 O0 usvFast none 1 gHalf (by norm_num)
     (by norm_num [USV.Inv, usvFast, FRIENDLY_MAX_SPEED])
     (fun a ha => nomatch ha),
   c3_speed_heading_bounds.2.2 O0 [] usvFast gHalf
     (by norm_num [USV.Inv, usvFast, FRIENDLY_MAX_SPEED])
     (fun a ha => absurd ha (List.not_mem_nil a))⟩

/-! ## Claim C8 -/

theorem mapWithIndex_get? {α : Type} (f : ℕ → α → α) :
    ∀ (l : List α) (n k : ℕ),
      (mapWithIndex f n l).get? k = (l.get? k).map (f (n + k)) := by
  intro l
  induction l with
  | nil =>
    intro n k
    simp [mapWithIndex]
  | cons a as ih =>
    intro n k
    match k with
    | 0 => simp [mapWithIndex]
    | k + 1 =>
      simp only [mapWithIndex, List.get?_cons_succ]
      rw [ih (n + 1) k, show n + 1 + k = n + (k + 1) by omega]

theorem assignPack_get? (numF k numA i : ℕ) (bs : List USV) (f : ℕ) :
    (assignPack numF k numA i bs).get? f =
      (bs.get? f).map (fun u =>
        if i * k ≤ f ∧ f < (if i < numA - 1 then (i + 1) * k else numF) then
          packUpdate i (f - i * k) u
        else u) := by
  dsimp only [assignPack]
  rw [mapWithIndex_get?]
  simp

/-- Which slice of the partition covers index `f`: with pack size `k ≥ 1`
and `a` adversaries, the unique `i < a` whose slice `[i*k, end_i)` contains
`f < numF` is `min (f / k) (a - 1)`. -/
theorem touched_iff (numF a k i f : ℕ) (hk : 0 < k) (hf : f < numF)
    (hi : i < a) :
    (i * k ≤ f ∧ f < (if i < a - 1 then (i + 1) * k else numF)) ↔
      min (f / k) (a - 1) = i := by
  split_ifs with hlt
  · constructor
    · rintro ⟨h1, h2⟩
      rw [Nat.div_eq_of_lt_le h1 h2, min_eq_left (by omega)]
    · intro hmin
      have hdiv : f / k = i := by
        rcases Nat.lt_or_ge (f / k) (a - 1) with hlt2 | hge
        · rw [min_eq_left (le_of_lt hlt2)] at hmin
          exact hmin
        · rw [min_eq_right hge] at hmin
          omega
      constructor
      · rw [← hdiv]
        exact Nat.div_mul_le_self f k
      · rw [← hdiv]
        have := Nat.lt_mul_div_succ f hk
        rw [Nat.mul_comm] at this
        exact this
  · have hieq : i = a - 1 := by omega
    subst hieq
    constructor
    · rintro ⟨h1, _⟩
      rw [min_eq_right]
      exact (Nat.le_div_iff_mul_le hk).mpr h1
    · intro hmin
      have hge : a - 1 ≤ f / k := hmin ▸ min_le_left (f / k) (a - 1)
      exact ⟨(Nat.le_div_iff_mul_le hk).mp hge, hf⟩

theorem assign_fold_aux (numF a k : ℕ) (hk : 0 < k) (bs : List USV) :
    ∀ (m : ℕ), m ≤ a → ∀ (f : ℕ) (u : USV), bs.get? f = some u → f < numF →
      ((List.range m).foldl (fun l i => assignPack numF k a i l) bs).get? f =
        some (if min (f / k) (a - 1) < m then
          packUpdate (min (f / k) (a - 1)) (f - min (f / k) (a - 1) * k) u
        else u) := by
  intro m
  induction m with
  | zero =>
    intro _ f u hu _
    simp only [List.range_zero, List.foldl_nil, Nat.not_lt_zero, if_neg,
      not_false_iff]
    rw [hu]
  | succ m ih =>
    intro hm f u hu hf
    have hr : List.range (m + 1) = List.range m ++ [m] := by
      rw [Nat.add_one]
      exact List.range_succ m
    rw [hr, List.foldl_append, List.foldl_cons, List.foldl_nil,
      assignPack_get?, ih (by omega) f u hu hf]
    have hiff := touched_iff numF a k m f hk hf (by omega)
    by_cases hcase : min (f / k) (a - 1) = m
    · rw [Option.map_some', if_pos (hiff.mpr hcase),
        if_neg (by omega), if_pos (by omega), hcase]
    · rw [Option.map_some', if_neg (fun hc => hcase (hiff.mp hc))]
      by_cases hlt : min (f / k) (a - 1) < m
      · rw [if_pos hlt, if_pos (by omega)]
      · rw [if_neg hlt, if_neg (by omega)]

/-- C8: the run-start tactical assignment sends the f-th friendly vessel
(0-based) to adversary `i = min (f / k) (a - 1)` where
`k = ⌊numF / numA⌋` — contiguous packs of size k in adversary order, with
the remainder absorbed by the last pack — with station angle
`station_angles[(f - i*k) % 8]` and stand-off distance
`INTERCEPT_DISTANCE * 1.2`; and the step functions never change the
assignment fields, so the assignment holds for the whole run. -/
theorem c8_tactical_assignment :
    (∀ (friendly : List USV) (advs : List AdversaryBoat) (f : ℕ) (u : USV),
       0 < advs.length → advs.length ≤ friendly.length →
       friendly.get? f = some u →
       (tacticalAssignment friendly advs).get? f =
         some (packUpdate
           (min (f / (friendly.length / advs.length)) (advs.length - 1))
           (f - min (f / (friendly.length / advs.length)) (advs.length - 1) *
             (friendly.length / advs.length)) u)) ∧
    (∀ (O : MathOracle) (u : USV) (tgt : Option AdversaryBoat) (dt : ℚ)
       (g : Rng),
       (u.step_sim O tgt dt g).1.assigned_target = u.assigned_target ∧
       (u.step_sim O tgt dt g).1.station_angle = u.station_angle ∧
       (u.step_sim O tgt dt g).1.station_dist = u.station_dist) ∧
    (∀ (O : MathOracle) (advs : List AdversaryBoat) (u : USV) (g : Rng),
       (usvTick O advs u g).1.assigned_target = u.assigned_target ∧
       (usvTick O advs u g).1.station_angle = u.station_angle ∧
       (usvTick O advs u g).1.station_dist = u.station_dist) := by
  refine ⟨?_, ?_, ?_⟩
  · intro friendly advs f u ha hle hu
    have hf : f < friendly.length := by
      by_contra hge
      rw [List.get?_eq_none.mpr (not_lt.mp hge)] at hu
      exact Option.noConfusion hu
    have hk : 0 < friendly.length / advs.length := Nat.div_pos hle ha
    have := assign_fold_aux friendly.length advs.length
      (friendly.length / advs.length) hk friendly advs.length (le_refl _)
      f u hu hf
    rw [tacticalAssignment, this, if_pos (by omega)]
  · intro O u tgt dt g
    exact (step_sim_proj O u tgt dt g).2.2.2.2.2
  · intro O advs u g
    obtain ⟨v, hv, _, _, _, _, hat, hsa, hsd⟩ := usvTick_eq O advs u g
    rw [hv]
    have := (step_sim_proj O v (u.assigned_target.bind advs.get?)
      SIMULATION_STEP_SEC g).2.2.2.2.2
    rw [this.1, this.2.1, this.2.2, hat, hsa, hsd]
    exact ⟨rfl, rfl, rfl⟩

/-- A second concrete adversary for the C8 witness. -/
def advConc2 : AdversaryBoat := { advConc with id := 2 }

/-- Witness for C8: three friendly vessels over two adversaries, pack size
1; the vessel at index 2 is the remainder absorbed by the last pack. -/
theorem c8_tactical_assignment_witness :
    0 < [advConc, advConc2].length ∧
    [advConc, advConc2].length ≤ [usvFast, usvLowBatt, usvBroken].length ∧
    [usvFast, usvLowBatt, usvBroken].get? 2 = some usvBroken ∧
    (tacticalAssignment [usvFast, usvLowBatt, usvBroken]
        [advConc, advConc2]).get? 2 =
      some (packUpdate
        (min (2 / ([usvFast, usvLowBatt, usvBroken].length /
          [advConc, advConc2].length)) ([advConc, advConc2].length - 1))
        (2 - min (2 / ([usvFast, usvLowBatt, usvBroken].length /
          [advConc, advConc2].length)) ([advConc, advConc2].length - 1) *
          ([usvFast, usvLowBatt, usvBroken].length /
            [advConc, advConc2].length)) usvBroken) :=
  ⟨by norm_num, by norm_num, rfl,
   c8_tactical_assignment.1 [usvFast, usvLowBatt, usvBroken]
     [advConc, advConc2] 2 usvBroken (by norm_num) (by norm_num) rfl⟩

/-! ## Claim C6 -/

/-- Erase the one field of a snapshot that depends on the wall clock. -/
def stripTimestamp (s : Snapshot) : Snapshot := { s with timestamp := 0 }

theorem snapshotsOf_strip (O : MathOracle) (advs : List AdversaryBoat)
    (usvs : List USV) (t : ℤ) :
    (snapshotsOf O advs usvs t).map stripTimestamp = snapshotsOf O advs usvs 0 := by
  dsimp only [snapshotsOf]
  rw [List.map_append, List.map_map, List.map_map]
  congr 1

theorem simSteps_strip (O : MathOracle) :
    ∀ (n : ℕ) (st : List AdversaryBoat × List USV) (g : Rng) (t1 t2 : ℤ),
      ((simSteps O n st g t1).flatten).map stripTimestamp =
        ((simSteps O n st g t2).flatten).map stripTimestamp := by
  intro n
  induction n with
  | zero =>
    intro st g t1 t2
    simp [simSteps]
  | succ n ih =>
    intro st g t1 t2
    rw [simSteps, simSteps]
    dsimp only
    rw [List.flatten_cons, List.flatten_cons, List.map_append, List.map_append,
      snapshotsOf_strip, snapshotsOf_strip, ih]

/-- C6 amended: the snapshot sequence of a run is a function of the random
stream and the start-of-day timestamp alone; two runs with the same stream
are identical except possibly in the timestamp fields (which come from the
wall-clock date via `datetime.utcnow()`), and two runs with the same stream
and the same start date are fully identical. -/
theorem c6_determinism_modulo_start_date :
    (∀ (O : MathOracle) (t1 t2 : ℤ) (g : Rng),
       (run_simulation O t1 g).map stripTimestamp =
         (run_simulation O t2 g).map stripTimestamp) ∧
    (∀ (O : MathOracle) (t : ℤ) (g g' : Rng),
       g.stream = g'.stream → g.pos = g'.pos →
       run_simulation O t g = run_simulation O t g') := by
  constructor
  · intro O t1 t2 g
    dsimp only [run_simulation]
    exact simSteps_strip O SIMULATION_DURATION_SEC _ _ t1 t2
  · intro O t g g' hs hp
    cases g
    cases g'
    dsimp only at hs hp
    rw [hs, hp]

theorem initList_length {α : Type} (mk : ℕ → Rng → α × Rng) :
    ∀ (l : List ℕ) (g : Rng), ((initList mk l g).1).length = l.length := by
  intro l
  induction l with
  | nil => intro g; rfl
  | cons i is ih =>
    intro g
    dsimp only [initList]
    simp [ih]

theorem stepAdversaries_length (O : MathOracle) :
    ∀ (l : List AdversaryBoat) (g : Rng),
      ((stepAdversaries O l g).1).length = l.length := by
  intro l
  induction l with
  | nil => intro g; rfl
  | cons a as ih =>
    intro g
    dsimp only [stepAdversaries]
    simp [ih]

/-- The first snapshot a (nonempty-adversary) tick logs bears the tick's
virtual timestamp. -/
theorem simSteps_head_ts (O : MathOracle) (n : ℕ)
    (st : List AdversaryBoat × List USV) (g : Rng) (t : ℤ) (h : st.1 ≠ []) :
    ((simSteps O (n + 1) st g t).flatten).head?.map Snapshot.timestamp =
      some t := by
  rw [simSteps]
  dsimp only
  rw [List.flatten_cons]
  rcases hadv : (stepAdversaries O st.1 g).1 with _ | ⟨a, rest⟩
  · exfalso
    have hl := stepAdversaries_length O st.1 g
    rw [hadv] at hl
    exact h (List.length_eq_zero.mp hl.symm)
  · simp [snapshotsOf, AdversaryBoat.to_dict]

/-- Every run's first logged snapshot carries the start-of-day timestamp of
the day the run happened to start on. -/
theorem run_simulation_head_ts (O : MathOracle) (t : ℤ) (g : Rng) :
    (run_simulation O t g).head?.map Snapshot.timestamp = some t := by
  dsimp only [run_simulation]
  rw [show SIMULATION_DURATION_SEC = 599 + 1 from rfl]
  refine simSteps_head_ts O 599 _ _ t ?_
  dsimp only
  intro hc
  have hl := initList_length AdversaryBoat.init
    (List.range' 1 NUM_ADVERSARY_BOATS)
    (initList USV.init (List.range' 1 NUM_FRIENDLY_BOATS) g).2
  rw [hc] at hl
  simp [NUM_ADVERSARY_BOATS] at hl

/-- C6 as stated is false: the virtual clock is seeded from the current UTC
date (`datetime.utcnow().replace(hour=0, ...)`), so two independent runs
with the same random stream that start on different days produce different
snapshot sequences — the timestamps differ. -/
theorem c6_counterexample :
    run_simulation O0 0 g0 ≠ run_simulation O0 86400 g0 := by
  intro hc
  have h1 := run_simulation_head_ts O0 0 g0
  have h2 := run_simulation_head_ts O0 86400 g0
  rw [hc] at h1
  have := h1.symm.trans h2
  simp at this

/-! ## Claim C5 -/

/-- C5: the `swarm_sim` module binds no name `SwarmSimulator` (it defines
only constants, the two utility functions, `AdversaryBoat`, `USV` and
`run_simulation`), so the `from swarm_sim import SwarmSimulator` that the
live-simulation path of the backend needs can never resolve, and the
start-simulation command can never report `{"status": "started"}` — a
failure is reported instead. -/
theorem c5_start_simulation_never_succeeds :
    "SwarmSimulator" ∉ swarm_sim_module_names ∧
    importSwarmSimulator = none ∧
    ∀ s : String, start_simulation_response = Except.ok s → False := by
  refine ⟨by decide, by decide, ?_⟩
  intro s hs
  simp [start_simulation_response, importSwarmSimulator,
    swarm_sim_module_names] at hs

end SwarmSense
